import Mathlib

/-! SceneManager and ViewManager: texture registry, material catalog, model transform,
authored scene, camera input and projection.

A shallow embedding of `Source/SceneManager.cpp` and `Source/ViewManager.cpp`.  Member
functions of the C++ classes `SceneManager` and `ViewManager` become functions on explicit
state records; the file-scope variables of `ViewManager.cpp` are fields of the
`ViewManager` record.  C++ behaviour that is undefined (indexing the fixed-size texture
array outside its bounds, dereferencing a null pointer) is made explicit as a `Fault`, so
every function that can reach such an access returns `Except Fault _`.  A local declared
without an initialiser starts with an indeterminate content that is a parameter of the
function.

Scalars (`float` in the source) are a type parameter `α`; the functions only copy them,
compare them or combine them with field operations and the library functions collected in
`FloatOps`.  Decimal literals stand for their exact decimal value.
-/

/-! ## Faults and loops -/

/-- An execution step whose behaviour the C++ standard leaves undefined, or a loop budget
that was exhausted. -/
inductive Fault where
  | outOfBoundsRead (index : Int)
  | outOfBoundsWrite (index : Int)
  | nullDereference
  | outOfFuel
  deriving DecidableEq, Repr

/-- A C `while (cond) body` loop over the local variables `σ`, run for at most `fuel`
iterations.  It reports `Fault.outOfFuel` when the condition still holds after `fuel`
iterations. -/
def whileLoop {σ : Type} (cond : σ → Bool) (body : σ → Except Fault σ) :
    Nat → σ → Except Fault σ
  | 0, st => if cond st then .error .outOfFuel else .ok st
  | fuel + 1, st =>
    if cond st then
      match body st with
      | .ok st1 => whileLoop cond body fuel st1
      | .error e => .error e
    else .ok st

/-! ## GLM vectors and matrices -/

/-- Type `glm::vec3`. -/
structure Vec3 (α : Type) where
  x : α
  y : α
  z : α
  deriving DecidableEq, Repr

/-- Type `glm::vec4`. -/
structure Vec4 (α : Type) where
  x : α
  y : α
  z : α
  w : α
  deriving DecidableEq, Repr

/-- Type `glm::mat4`, stored by columns as GLM does: `c0 .. c3` are `m[0] .. m[3]`. -/
structure Mat4 (α : Type) where
  c0 : Vec4 α
  c1 : Vec4 α
  c2 : Vec4 α
  c3 : Vec4 α
  deriving DecidableEq, Repr

/-- The library functions on scalars that GLM calls: `cos`, `sin`, `inversesqrt`, and the
constant by which `glm::radians` multiplies a degree value (π/180). -/
structure FloatOps (α : Type) where
  cos : α → α
  sin : α → α
  inversesqrt : α → α
  degToRad : α

namespace Vec3

/-- Componentwise `v * k` for a scalar `k`. -/
def scale {α : Type} [Mul α] (v : Vec3 α) (k : α) : Vec3 α :=
  ⟨v.x * k, v.y * k, v.z * k⟩

/-- Function `glm::dot` on `vec3`. -/
def dot {α : Type} [Mul α] [Add α] (a b : Vec3 α) : α :=
  a.x * b.x + a.y * b.y + a.z * b.z

/-- Function `glm::normalize`: `v * inversesqrt(dot(v, v))`. -/
def normalize {α : Type} [Mul α] [Add α] (ops : FloatOps α) (v : Vec3 α) : Vec3 α :=
  v.scale (ops.inversesqrt (dot v v))

end Vec3

namespace Vec4

/-- Componentwise sum of two `vec4`. -/
def add {α : Type} [Add α] (a b : Vec4 α) : Vec4 α :=
  ⟨a.x + b.x, a.y + b.y, a.z + b.z, a.w + b.w⟩

/-- Componentwise `v * k` for a scalar `k`. -/
def scale {α : Type} [Mul α] (v : Vec4 α) (k : α) : Vec4 α :=
  ⟨v.x * k, v.y * k, v.z * k, v.w * k⟩

end Vec4

namespace Mat4

/-- The matrix `glm::mat4(1.0f)`. -/
def identity {α : Type} [Zero α] [One α] : Mat4 α :=
  ⟨⟨1, 0, 0, 0⟩, ⟨0, 1, 0, 0⟩, ⟨0, 0, 1, 0⟩, ⟨0, 0, 0, 1⟩⟩

/-- GLM `mat4 * vec4`: `m[0]*v.x + m[1]*v.y + m[2]*v.z + m[3]*v.w`. -/
def mulVec {α : Type} [Mul α] [Add α] (m : Mat4 α) (v : Vec4 α) : Vec4 α :=
  (((m.c0.scale v.x).add (m.c1.scale v.y)).add (m.c2.scale v.z)).add (m.c3.scale v.w)

/-- GLM `mat4 * mat4`: column `j` of the product is `a * b[j]`. -/
def mul {α : Type} [Mul α] [Add α] (a b : Mat4 α) : Mat4 α :=
  ⟨a.mulVec b.c0, a.mulVec b.c1, a.mulVec b.c2, a.mulVec b.c3⟩

/-- GLM `translate(m, v)`: `m` with `m[3]` replaced by `m[0]*v.x + m[1]*v.y + m[2]*v.z + m[3]`. -/
def translateM {α : Type} [Mul α] [Add α] (m : Mat4 α) (v : Vec3 α) : Mat4 α :=
  { m with c3 := (((m.c0.scale v.x).add (m.c1.scale v.y)).add (m.c2.scale v.z)).add m.c3 }

/-- GLM `scale(m, v)`: columns `m[0]*v.x`, `m[1]*v.y`, `m[2]*v.z`, `m[3]`. -/
def scaleM {α : Type} [Mul α] (m : Mat4 α) (v : Vec3 α) : Mat4 α :=
  ⟨m.c0.scale v.x, m.c1.scale v.y, m.c2.scale v.z, m.c3⟩

/-- GLM `rotate(m, angle, v)`: the axis is normalised, the 3x3 rotation block `Rotate` is
built from `cos(angle)` and `sin(angle)`, and the result is `m` times that block. -/
def rotateM {α : Type} [Ring α] (ops : FloatOps α) (m : Mat4 α) (angle : α) (v : Vec3 α) :
    Mat4 α :=
  let c := ops.cos angle
  let s := ops.sin angle
  let axis := Vec3.normalize ops v
  let temp := Vec3.mk ((1 - c) * axis.x) ((1 - c) * axis.y) ((1 - c) * axis.z)
  let r00 := c + temp.x * axis.x
  let r01 := temp.x * axis.y + s * axis.z
  let r02 := temp.x * axis.z - s * axis.y
  let r10 := temp.y * axis.x - s * axis.z
  let r11 := c + temp.y * axis.y
  let r12 := temp.y * axis.z + s * axis.x
  let r20 := temp.z * axis.x + s * axis.y
  let r21 := temp.z * axis.y - s * axis.x
  let r22 := c + temp.z * axis.z
  ⟨((m.c0.scale r00).add (m.c1.scale r01)).add (m.c2.scale r02),
   ((m.c0.scale r10).add (m.c1.scale r11)).add (m.c2.scale r12),
   ((m.c0.scale r20).add (m.c1.scale r21)).add (m.c2.scale r22),
   m.c3⟩

/-- The one-argument `glm::translate(v)` of `glm/gtx/transform.hpp`. -/
def translate {α : Type} [Ring α] (v : Vec3 α) : Mat4 α :=
  translateM identity v

/-- The one-argument `glm::scale(v)` of `glm/gtx/transform.hpp`. -/
def scale {α : Type} [Ring α] (v : Vec3 α) : Mat4 α :=
  scaleM identity v

/-- The two-argument `glm::rotate(angle, v)` of `glm/gtx/transform.hpp`. -/
def rotate {α : Type} [Ring α] (ops : FloatOps α) (angle : α) (v : Vec3 α) : Mat4 α :=
  rotateM ops identity angle v

end Mat4

/-- Function `glm::radians`: degrees times the constant π/180. -/
def radians {α : Type} [Mul α] (ops : FloatOps α) (degrees : α) : α :=
  degrees * ops.degToRad

/-! ## Shader manager -/

/-- A value passed to one of the shader manager's `set...Value` calls. -/
inductive UniformValue (α : Type) where
  | int (v : Int)
  | float (v : α)
  | vec3 (v : Vec3 α)
  | vec4 (v : Vec4 α)
  | mat4 (m : Mat4 α)
  | bool (v : Bool)
  | sampler2D (slot : Int)
  deriving DecidableEq, Repr

/-- Modelled from the spec: the class `ShaderManager` (`ShaderManager.cpp` is absent) is the
uniform-binding sink of the scene code.  Its state is the sequence of uniform uploads it has
received, oldest first, each a uniform name with the uploaded value. -/
structure ShaderManager (α : Type) where
  uniforms : List (String × UniformValue α)
  deriving DecidableEq, Repr

namespace ShaderManager

/-- Call `setMat4Value(name, value)`. -/
def setMat4Value {α : Type} (sh : ShaderManager α) (name : String) (value : Mat4 α) :
    ShaderManager α :=
  ⟨sh.uniforms ++ [(name, .mat4 value)]⟩

/-- Call `setVec3Value(name, value)`. -/
def setVec3Value {α : Type} (sh : ShaderManager α) (name : String) (value : Vec3 α) :
    ShaderManager α :=
  ⟨sh.uniforms ++ [(name, .vec3 value)]⟩

/-- Call `setFloatValue(name, value)`. -/
def setFloatValue {α : Type} (sh : ShaderManager α) (name : String) (value : α) :
    ShaderManager α :=
  ⟨sh.uniforms ++ [(name, .float value)]⟩

/-- Call `setIntValue(name, value)`. -/
def setIntValue {α : Type} (sh : ShaderManager α) (name : String) (value : Int) :
    ShaderManager α :=
  ⟨sh.uniforms ++ [(name, .int value)]⟩

/-- Call `setBoolValue(name, value)`. -/
def setBoolValue {α : Type} (sh : ShaderManager α) (name : String) (value : Bool) :
    ShaderManager α :=
  ⟨sh.uniforms ++ [(name, .bool value)]⟩

/-- Call `setVec4Value(name, value)`. -/
def setVec4Value {α : Type} (sh : ShaderManager α) (name : String) (value : Vec4 α) :
    ShaderManager α :=
  ⟨sh.uniforms ++ [(name, .vec4 value)]⟩

/-- Call `setSampler2DValue(name, value)`. -/
def setSampler2DValue {α : Type} (sh : ShaderManager α) (name : String) (value : Int) :
    ShaderManager α :=
  ⟨sh.uniforms ++ [(name, .sampler2D value)]⟩

/-- The value a uniform holds: the one of the latest upload under its name, `none` when
nothing was uploaded under it. -/
def value {α : Type} (sh : ShaderManager α) (name : String) : Option (UniformValue α) :=
  match sh.uniforms.reverse.find? (fun u => u.1 == name) with
  | some u => some u.2
  | none => none

end ShaderManager

/-! ## Scene manager state -/

/-- Modelled from the spec: the length of the array `m_textureIDs`, declared in
`SceneManager.h` (absent); the registry is "bounded at 16 entries", slots 0–15. -/
def MAX_TEXTURES : Nat := 16

/-- One element of `m_textureIDs`: the tag and the OpenGL texture name.  `ID` is a `GLuint`
(its address is passed to `glGenTextures`), so a value below `2^32`. -/
structure TEXTURE_INFO where
  tag : String
  ID : Nat
  deriving DecidableEq, Repr, Inhabited

/-- One element of `m_objectMaterials`, with the fields `FindMaterial` and
`DefineObjectMaterials` use. -/
structure OBJECT_MATERIAL (α : Type) where
  ambientColor : Vec3 α
  ambientStrength : α
  diffuseColor : Vec3 α
  specularColor : Vec3 α
  shininess : α
  tag : String
  deriving DecidableEq, Repr

/-- The data members of `SceneManager` that the functions below read or write.
`m_pShaderManager = none` is the null pointer. -/
structure SceneManager (α : Type) where
  m_pShaderManager : Option (ShaderManager α)
  m_loadedTextures : Int
  m_textureIDs : List TEXTURE_INFO
  m_objectMaterials : List (OBJECT_MATERIAL α)
  deriving DecidableEq, Repr

/-- Conversion of a `GLuint` to `int` (two's complement, 32 bits). -/
def glUintToInt (u : Nat) : Int :=
  if u % 2 ^ 32 < 2 ^ 31 then ((u % 2 ^ 32 : Nat) : Int) else ((u % 2 ^ 32 : Nat) : Int) - 2 ^ 32

/-- Names of the shader uniform written by `SetTransformations`. -/
def g_ModelName : String := "model"

/-- Name of the flat colour uniform. -/
def g_ColorValueName : String := "objectColor"

/-- Name of the texture sampler uniform. -/
def g_TextureValueName : String := "objectTexture"

/-- Name of the flag that makes the shader sample the texture. -/
def g_UseTextureName : String := "bUseTexture"

/-! ## Texture registry -/

/-- What `stbi_load` reports about a file it could decode. -/
structure StbImage where
  width : Int
  height : Int
  colorChannels : Int
  deriving DecidableEq, Repr

namespace SceneManager

/-- Read of `m_textureIDs[index]`; outside the array it is undefined behaviour. -/
def readTexture {α : Type} (s : SceneManager α) (index : Nat) : Except Fault TEXTURE_INFO :=
  match s.m_textureIDs[index]? with
  | some e => .ok e
  | none => .error (.outOfBoundsRead index)

/-- The registration at the end of `CreateGLTexture`:
`m_textureIDs[m_loadedTextures].ID = textureID; m_textureIDs[m_loadedTextures].tag = tag;
m_loadedTextures++; return true;`.  The source does not test the index, so outside the
array the write is undefined behaviour. -/
def registerTexture {α : Type} (s : SceneManager α) (textureID : Nat) (tag : String) :
    Except Fault (Bool × SceneManager α) :=
  if 0 ≤ s.m_loadedTextures ∧ s.m_loadedTextures < (s.m_textureIDs.length : Int) then
    .ok (true,
      { s with
        m_textureIDs := s.m_textureIDs.set s.m_loadedTextures.toNat ⟨tag, textureID⟩
        m_loadedTextures := s.m_loadedTextures + 1 })
  else .error (.outOfBoundsWrite s.m_loadedTextures)

/-- Method `CreateGLTexture(filename, tag)`.  `image` is what `stbi_load(filename, ...)`
returned (`none` for a null pointer) and `genTexture` the name `glGenTextures` stored into
the local `GLuint textureID`.  The OpenGL calls change no data member and are left out.
Returns the `bool` result and the state after the call. -/
def CreateGLTexture {α : Type} (s : SceneManager α) (image : Option StbImage)
    (genTexture : Nat) (tag : String) : Except Fault (Bool × SceneManager α) :=
  match image with
  | some img =>
    let textureID : Nat := genTexture % 2 ^ 32
    if img.colorChannels = 3 then s.registerTexture textureID tag
    else if img.colorChannels = 4 then s.registerTexture textureID tag
    else .ok (false, s)
  | none => .ok (false, s)

/-- An OpenGL call issued by `BindGLTextures`. -/
inductive GLCall where
  | activeTexture (unit : Nat)
  | bindTexture2D (name : Nat)
  deriving DecidableEq, Repr

/-- Locals of `BindGLTextures`: the loop counter and the OpenGL calls issued so far. -/
structure BindLocals where
  i : Nat
  calls : List GLCall
  deriving DecidableEq, Repr

/-- Loop test of `BindGLTextures`: `i < m_loadedTextures`. -/
def bindCond {α : Type} (s : SceneManager α) (st : BindLocals) : Bool :=
  decide ((st.i : Int) < s.m_loadedTextures)

/-- Loop body of `BindGLTextures`, with the increment `i++`. -/
def bindBody {α : Type} (s : SceneManager α) (st : BindLocals) : Except Fault BindLocals :=
  match s.readTexture st.i with
  | .ok e => .ok ⟨st.i + 1, st.calls ++ [.activeTexture st.i, .bindTexture2D e.ID]⟩
  | .error f => .error f

/-- Method `BindGLTextures()`: for `i = 0 .. m_loadedTextures - 1` it selects texture unit
`i` and binds `m_textureIDs[i].ID` to it.  It writes no data member; the result is the
sequence of OpenGL calls. -/
def BindGLTextures {α : Type} (s : SceneManager α) : Except Fault (List GLCall) :=
  match whileLoop s.bindCond s.bindBody s.m_loadedTextures.toNat ⟨0, []⟩ with
  | .ok st => .ok st.calls
  | .error f => .error f

/-- Locals of `FindTextureID`. -/
structure FindIDLocals where
  textureID : Int
  index : Nat
  bFound : Bool
  deriving DecidableEq, Repr

/-- Loop test of `FindTextureID`: `(index < m_loadedTextures) && (bFound == false)`. -/
def findIDCond {α : Type} (s : SceneManager α) (st : FindIDLocals) : Bool :=
  decide ((st.index : Int) < s.m_loadedTextures) && (st.bFound == false)

/-- Loop body of `FindTextureID`.  The assignment `textureID = m_textureIDs[index].ID`
converts the `GLuint` to `int`. -/
def findIDBody {α : Type} (s : SceneManager α) (tag : String) (st : FindIDLocals) :
    Except Fault FindIDLocals :=
  match s.readTexture st.index with
  | .ok e =>
    if e.tag = tag then .ok { st with textureID := glUintToInt e.ID, bFound := true }
    else .ok { st with index := st.index + 1 }
  | .error f => .error f

/-- Method `FindTextureID(tag)`.  Each iteration either sets `bFound` or advances `index`,
so `m_loadedTextures + 1` iterations are enough. -/
def FindTextureID {α : Type} (s : SceneManager α) (tag : String) : Except Fault Int :=
  match whileLoop s.findIDCond (s.findIDBody tag) (s.m_loadedTextures.toNat + 1)
      ⟨-1, 0, false⟩ with
  | .ok st => .ok st.textureID
  | .error f => .error f

/-- Locals of `FindTextureSlot`. -/
structure FindSlotLocals where
  textureSlot : Int
  index : Nat
  bFound : Bool
  deriving DecidableEq, Repr

/-- Loop test of `FindTextureSlot`: `(index < m_loadedTextures) && (bFound == false)`. -/
def findSlotCond {α : Type} (s : SceneManager α) (st : FindSlotLocals) : Bool :=
  decide ((st.index : Int) < s.m_loadedTextures) && (st.bFound == false)

/-- Loop body of `FindTextureSlot`. -/
def findSlotBody {α : Type} (s : SceneManager α) (tag : String) (st : FindSlotLocals) :
    Except Fault FindSlotLocals :=
  match s.readTexture st.index with
  | .ok e =>
    if e.tag = tag then .ok { st with textureSlot := (st.index : Int), bFound := true }
    else .ok { st with index := st.index + 1 }
  | .error f => .error f

/-- Method `FindTextureSlot(tag)`.  Each iteration either sets `bFound` or advances `index`,
so `m_loadedTextures + 1` iterations are enough. -/
def FindTextureSlot {α : Type} (s : SceneManager α) (tag : String) : Except Fault Int :=
  match whileLoop s.findSlotCond (s.findSlotBody tag) (s.m_loadedTextures.toNat + 1)
      ⟨-1, 0, false⟩ with
  | .ok st => .ok st.textureSlot
  | .error f => .error f

/-! ## Material catalog -/

/-- Locals of `FindMaterial`; `material` is the caller's object behind the reference
parameter. -/
structure FindMaterialLocals (α : Type) where
  material : OBJECT_MATERIAL α
  index : Nat
  bFound : Bool

/-- Loop test of `FindMaterial`: `(index < m_objectMaterials.size()) && (bFound == false)`. -/
def findMaterialCond {α : Type} (s : SceneManager α) (st : FindMaterialLocals α) : Bool :=
  decide (st.index < s.m_objectMaterials.length) && (st.bFound == false)

/-- Loop body of `FindMaterial`: on a tag match it copies five fields (not the tag) into
the caller's material. -/
def findMaterialBody {α : Type} (s : SceneManager α) (tag : String)
    (st : FindMaterialLocals α) : Except Fault (FindMaterialLocals α) :=
  match s.m_objectMaterials[st.index]? with
  | some m =>
    if m.tag = tag then
      .ok { st with
        bFound := true
        material :=
          { st.material with
            ambientColor := m.ambientColor
            ambientStrength := m.ambientStrength
            diffuseColor := m.diffuseColor
            specularColor := m.specularColor
            shininess := m.shininess } }
    else .ok { st with index := st.index + 1 }
  | none => .error (.outOfBoundsRead st.index)

/-- Method `FindMaterial(tag, material)`: returns the `bool` result and the contents of the
reference parameter `material` after the call.  After the loop the function executes
`return(true)`. -/
def FindMaterial {α : Type} (s : SceneManager α) (tag : String) (material : OBJECT_MATERIAL α) :
    Except Fault (Bool × OBJECT_MATERIAL α) :=
  if s.m_objectMaterials.length = 0 then .ok (false, material)
  else
    match whileLoop s.findMaterialCond (s.findMaterialBody tag)
        (s.m_objectMaterials.length + 1) ⟨material, 0, false⟩ with
    | .ok st => .ok (true, st.material)
    | .error f => .error f

/-- Method `SetShaderMaterial(materialTag)`.  `uninit` is the indeterminate content of the
local `OBJECT_MATERIAL material`, which the function declares without an initialiser.
The shader manager pointer is dereferenced without a null test. -/
def SetShaderMaterial {α : Type} (s : SceneManager α) (materialTag : String)
    (uninit : OBJECT_MATERIAL α) : Except Fault (SceneManager α) :=
  if s.m_objectMaterials.length > 0 then
    match s.FindMaterial materialTag uninit with
    | .ok (bReturn, material) =>
      if bReturn == true then
        match s.m_pShaderManager with
        | some sh =>
          let sh := sh.setVec3Value "material.ambientColor" material.ambientColor
          let sh := sh.setFloatValue "material.ambientStrength" material.ambientStrength
          let sh := sh.setVec3Value "material.diffuseColor" material.diffuseColor
          let sh := sh.setVec3Value "material.specularColor" material.specularColor
          let sh := sh.setFloatValue "material.shininess" material.shininess
          .ok { s with m_pShaderManager := some sh }
        | none => .error .nullDereference
      else .ok s
    | .error f => .error f
  else .ok s

/-! ## Colour and texture selection -/

/-- Method `SetShaderColor(r, g, b, a)`: when the shader manager pointer is not null it
uploads `bUseTexture = false` (through `setIntValue`, so the integer 0) and then the colour
as `objectColor`. -/
def SetShaderColor {α : Type} (s : SceneManager α)
    (redColorValue greenColorValue blueColorValue alphaValue : α) : SceneManager α :=
  let currentColor : Vec4 α := ⟨redColorValue, greenColorValue, blueColorValue, alphaValue⟩
  match s.m_pShaderManager with
  | some sh =>
    let sh := sh.setIntValue g_UseTextureName 0
    let sh := sh.setVec4Value g_ColorValueName currentColor
    { s with m_pShaderManager := some sh }
  | none => s

/-- Method `SetShaderTexture(textureTag)`: when the shader manager pointer is not null it
uploads `bUseTexture = true` (the integer 1) and then the result of
`FindTextureSlot(textureTag)` as the sampler `objectTexture`. -/
def SetShaderTexture {α : Type} (s : SceneManager α) (textureTag : String) :
    Except Fault (SceneManager α) :=
  match s.m_pShaderManager with
  | some sh =>
    let sh := sh.setIntValue g_UseTextureName 1
    match s.FindTextureSlot textureTag with
    | .ok textureID =>
      .ok { s with m_pShaderManager := some (sh.setSampler2DValue g_TextureValueName textureID) }
    | .error f => .error f
  | none => .ok s

/-! ## Model transform -/

/-- The value of the local `modelView` in `SetTransformations`:
`translation * rotationX * rotationY * rotationZ * scale` (C++ `*` associates to the left). -/
def modelView {α : Type} [Ring α] (ops : FloatOps α) (scaleXYZ : Vec3 α)
    (XrotationDegrees YrotationDegrees ZrotationDegrees : α) (positionXYZ : Vec3 α) : Mat4 α :=
  let scale := Mat4.scale scaleXYZ
  let rotationX := Mat4.rotate ops (radians ops XrotationDegrees) ⟨1, 0, 0⟩
  let rotationY := Mat4.rotate ops (radians ops YrotationDegrees) ⟨0, 1, 0⟩
  let rotationZ := Mat4.rotate ops (radians ops ZrotationDegrees) ⟨0, 0, 1⟩
  let translation := Mat4.translate positionXYZ
  (((translation.mul rotationX).mul rotationY).mul rotationZ).mul scale

/-- Method `SetTransformations(scaleXYZ, Xrot, Yrot, Zrot, positionXYZ)`: uploads
`modelView` as the uniform `model` when the shader manager pointer is not null. -/
def SetTransformations {α : Type} [Ring α] (s : SceneManager α) (ops : FloatOps α)
    (scaleXYZ : Vec3 α) (XrotationDegrees YrotationDegrees ZrotationDegrees : α)
    (positionXYZ : Vec3 α) : SceneManager α :=
  match s.m_pShaderManager with
  | some sh =>
    { s with
      m_pShaderManager :=
        some (sh.setMat4Value g_ModelName
          (modelView ops scaleXYZ XrotationDegrees YrotationDegrees ZrotationDegrees
            positionXYZ)) }
  | none => s

end SceneManager

/-- Modelled from the spec: the empty registry the spec's properties start from, with a
count of zero, `MAX_TEXTURES` array elements and an empty material catalog.  The constructor
in `SceneManager.cpp` assigns neither `m_loadedTextures` nor `m_textureIDs`, and
`SceneManager.h`, which could give them initialisers, is absent; so this state is a sample
input, and a theorem about a scene manager that has loaded nothing states the zero count,
the array length and the empty catalog as hypotheses. -/
def emptyScene (α : Type) : SceneManager α :=
  ⟨some ⟨[]⟩, 0, List.replicate MAX_TEXTURES ⟨"", 0⟩, []⟩

/-- A run of `CreateGLTexture` calls, one per `(image, generated name, tag)` triple, each on
the state the previous one left. -/
def loadAll {α : Type} (s : SceneManager α) :
    List (Option StbImage × Nat × String) → Except Fault (SceneManager α)
  | [] => .ok s
  | (image, genTexture, tag) :: rest =>
    match s.CreateGLTexture image genTexture tag with
    | .ok (_, s1) => loadAll s1 rest
    | .error f => .error f


/-- One call of `SetShaderColor` or of `SetShaderTexture`. -/
inductive SurfaceCall (α : Type) where
  | color (r g b a : α)
  | texture (tag : String)

/-- The value `bUseTexture` receives from a call: 0 from `SetShaderColor`, 1 from
`SetShaderTexture`. -/
def SurfaceCall.flag {α : Type} : SurfaceCall α → Int
  | .color _ _ _ _ => 0
  | .texture _ => 1

/-- A run of `SetShaderColor` / `SetShaderTexture` calls, in order. -/
def applySurfaceCalls {α : Type} (s : SceneManager α) :
    List (SurfaceCall α) → Except Fault (SceneManager α)
  | [] => .ok s
  | .color r g b a :: rest => applySurfaceCalls (s.SetShaderColor r g b a) rest
  | .texture tag :: rest =>
    match s.SetShaderTexture tag with
    | .ok s1 => applySurfaceCalls s1 rest
    | .error f => .error f

/-! ## GLM projection matrices -/

namespace Mat4

/-- GLM `perspective(fovy, aspect, zNear, zFar)` (right-handed, depth -1..1): a zero matrix
with five elements set from `tan(fovy / 2)`. -/
def perspective {α : Type} [Field α] (tan : α → α) (fovy aspect zNear zFar : α) : Mat4 α :=
  let tanHalfFovy := tan (fovy / 2)
  ⟨⟨1 / (aspect * tanHalfFovy), 0, 0, 0⟩,
   ⟨0, 1 / tanHalfFovy, 0, 0⟩,
   ⟨0, 0, -(zFar + zNear) / (zFar - zNear), -1⟩,
   ⟨0, 0, -(2 * zFar * zNear) / (zFar - zNear), 0⟩⟩

/-- GLM `ortho(left, right, bottom, top, zNear, zFar)` (right-handed, depth -1..1): an
identity matrix with six elements set. -/
def ortho {α : Type} [Field α] (left right bottom top zNear zFar : α) : Mat4 α :=
  ⟨⟨2 / (right - left), 0, 0, 0⟩,
   ⟨0, 2 / (top - bottom), 0, 0⟩,
   ⟨0, 0, -2 / (zFar - zNear), 0⟩,
   ⟨-(right + left) / (right - left), -(top + bottom) / (top - bottom),
    -(zFar + zNear) / (zFar - zNear), 1⟩⟩

end Mat4

/-! ## Camera and view manager -/

/-- Modelled from the spec: the class `Camera` (`camera.h` is absent), with the members the
view manager reads or writes: "position, front vector, up vector, yaw, pitch, zoom,
movement speed". -/
structure Camera (α : Type) where
  Position : Vec3 α
  Front : Vec3 α
  Up : Vec3 α
  Yaw : α
  Pitch : α
  Zoom : α
  MovementSpeed : α
  deriving DecidableEq, Repr

/-- The directions passed to `Camera::ProcessKeyboard`. -/
inductive Camera_Movement where
  | FORWARD
  | BACKWARD
  | LEFT
  | RIGHT
  | UP
  | DOWN
  deriving DecidableEq, Repr

/-- Modelled from the spec: the two `Camera` methods the view manager calls,
`ProcessKeyboard(direction, deltaTime)` and `GetViewMatrix()`.  Their code is absent and
the spec leaves the camera's movement math out of scope, so they are parameters. -/
structure CameraOps (α : Type) where
  ProcessKeyboard : Camera_Movement → α → Camera α → Camera α
  GetViewMatrix : Camera α → Mat4 α

/-- For each key `ProcessKeyboardEvents` polls, whether `glfwGetKey` reports `GLFW_PRESS`. -/
structure KeyState where
  escape : Bool
  w : Bool
  s : Bool
  a : Bool
  d : Bool
  q : Bool
  e : Bool
  o : Bool
  key2 : Bool
  key3 : Bool
  p : Bool
  deriving DecidableEq, Repr

/-- No key pressed. -/
def KeyState.released : KeyState :=
  ⟨false, false, false, false, false, false, false, false, false, false, false⟩

/-- Width of the window. -/
def WINDOW_WIDTH : Nat := 1000

/-- Height of the window. -/
def WINDOW_HEIGHT : Nat := 800

/-- Name of the view matrix uniform. -/
def g_ViewName : String := "view"

/-- Name of the projection matrix uniform. -/
def g_ProjectionName : String := "projection"

/-- The members of `ViewManager` and the file-scope variables of `ViewManager.cpp`.
`windowShouldClose` is the close flag of the window behind `m_pWindow`; `none` is a null
pointer. -/
structure ViewManager (α : Type) where
  m_pShaderManager : Option (ShaderManager α)
  windowShouldClose : Bool
  g_pCamera : Option (Camera α)
  gLastX : α
  gLastY : α
  gFirstMouse : Bool
  gDeltaTime : α
  gLastFrame : α
  bOrthographicProjection : Bool
  deriving DecidableEq, Repr

namespace ViewManager

/-- The state after the constructor `ViewManager(pShaderManager)`: the file-scope variables
hold their initialisers, and the camera is the object `new Camera()` built (`newCamera`)
with position, front, up and zoom overwritten. -/
def new {α : Type} [Field α] (pShaderManager : Option (ShaderManager α))
    (newCamera : Camera α) : ViewManager α :=
  { m_pShaderManager := pShaderManager
    windowShouldClose := false
    g_pCamera :=
      some { newCamera with
        Position := ⟨0.0, 5.0, 12.0⟩
        Front := ⟨0.0, -0.5, -2.0⟩
        Up := ⟨0.0, 1.0, 0.0⟩
        Zoom := 80 }
    gLastX := (WINDOW_WIDTH : α) / 2.0
    gLastY := (WINDOW_HEIGHT : α) / 2.0
    gFirstMouse := true
    gDeltaTime := 0.0
    gLastFrame := 0.0
    bOrthographicProjection := false }

/-- The two pitch tests of `Mouse_Position_Callback`:
`if (Pitch > 89.0f) Pitch = 89.0f; if (Pitch < -89.0f) Pitch = -89.0f;`. -/
def clampPitch {α : Type} [LinearOrderedField α] (cam : Camera α) : Camera α :=
  let cam := if cam.Pitch > 89.0 then { cam with Pitch := 89.0 } else cam
  let cam := if cam.Pitch < -89.0 then { cam with Pitch := -89.0 } else cam
  cam

/-- The value assigned to `Front` at the end of `Mouse_Position_Callback`: the normalised
`direction` computed from yaw and pitch. -/
def lookDirection {α : Type} [Ring α] (ops : FloatOps α) (cam : Camera α) : Vec3 α :=
  let direction : Vec3 α :=
    ⟨ops.cos (radians ops cam.Yaw) * ops.cos (radians ops cam.Pitch),
     ops.sin (radians ops cam.Pitch),
     ops.sin (radians ops cam.Yaw) * ops.cos (radians ops cam.Pitch)⟩
  Vec3.normalize ops direction

/-- Function `Mouse_Position_Callback(window, xMousePos, yMousePos)`.  The camera pointer
is dereferenced without a null test. -/
def Mouse_Position_Callback {α : Type} [LinearOrderedField α] (vm : ViewManager α)
    (ops : FloatOps α) (xMousePos yMousePos : α) : Except Fault (ViewManager α) :=
  let vm :=
    if vm.gFirstMouse then
      { vm with gLastX := xMousePos, gLastY := yMousePos, gFirstMouse := false }
    else vm
  let xoffset := xMousePos - vm.gLastX
  let yoffset := vm.gLastY - yMousePos
  let vm := { vm with gLastX := xMousePos, gLastY := yMousePos }
  let sensitivity : α := 0.1
  let xoffset := xoffset * sensitivity
  let yoffset := yoffset * sensitivity
  match vm.g_pCamera with
  | none => .error .nullDereference
  | some cam =>
    let cam := { cam with Yaw := cam.Yaw + xoffset }
    let cam := { cam with Pitch := cam.Pitch + yoffset }
    let cam := clampPitch cam
    .ok { vm with g_pCamera := some { cam with Front := lookDirection ops cam } }

/-- Function `scroll_callback(window, xoffset, yoffset)`.  The camera pointer is
dereferenced without a null test. -/
def scroll_callback {α : Type} [LinearOrderedField α] (vm : ViewManager α)
    (_xoffset yoffset : α) : Except Fault (ViewManager α) :=
  match vm.g_pCamera with
  | none => .error .nullDereference
  | some cam =>
    let cam := { cam with MovementSpeed := cam.MovementSpeed + yoffset }
    let cam := if cam.MovementSpeed < 1.0 then { cam with MovementSpeed := 1.0 } else cam
    let cam := if cam.MovementSpeed > 45.0 then { cam with MovementSpeed := 45.0 } else cam
    .ok { vm with g_pCamera := some cam }

/-- The six camera-movement tests of `ProcessKeyboardEvents` (keys W, S, A, D, Q, E), in
source order. -/
def movementKeys {α : Type} (cops : CameraOps α) (keys : KeyState) (gDeltaTime : α)
    (cam : Camera α) : Camera α :=
  let cam := if keys.w then cops.ProcessKeyboard .FORWARD gDeltaTime cam else cam
  let cam := if keys.s then cops.ProcessKeyboard .BACKWARD gDeltaTime cam else cam
  let cam := if keys.a then cops.ProcessKeyboard .LEFT gDeltaTime cam else cam
  let cam := if keys.d then cops.ProcessKeyboard .RIGHT gDeltaTime cam else cam
  let cam := if keys.q then cops.ProcessKeyboard .UP gDeltaTime cam else cam
  let cam := if keys.e then cops.ProcessKeyboard .DOWN gDeltaTime cam else cam
  cam

/-- The four projection-preset tests of `ProcessKeyboardEvents` (keys O, 2, 3, P), in
source order, on the pair of the camera and `bOrthographicProjection`. -/
def presetKeys {α : Type} [Field α] (keys : KeyState) (st : Camera α × Bool) :
    Camera α × Bool :=
  let st :=
    if keys.o then
      ({ st.1 with
          Position := ⟨0.0, 4.0, 10.0⟩
          Up := ⟨0.0, 1.0, 0.0⟩
          Front := ⟨0.0, 0.0, -1.0⟩ }, true)
    else st
  let st :=
    if keys.key2 then
      ({ st.1 with
          Position := ⟨10.0, 4.0, 0.0⟩
          Up := ⟨0.0, 1.0, 0.0⟩
          Front := ⟨-1.0, 0.0, 0.0⟩ }, true)
    else st
  let st :=
    if keys.key3 then
      ({ st.1 with
          Position := ⟨0.0, 7.0, 0.0⟩
          Up := ⟨-1.0, 0.0, 0.0⟩
          Front := ⟨0.0, -1.0, 0.0⟩ }, true)
    else st
  let st :=
    if keys.p then
      ({ st.1 with
          Position := ⟨0.0, 5.5, 8.0⟩
          Front := ⟨0.0, -0.5, -2.0⟩
          Up := ⟨0.0, 1.0, 0.0⟩
          Zoom := 80 }, false)
    else st
  st

/-- Method `ProcessKeyboardEvents()`, with the key states `glfwGetKey` reports: the escape
test, the return on a null camera, the movement tests and the preset tests. -/
def ProcessKeyboardEvents {α : Type} [Field α] (vm : ViewManager α) (cops : CameraOps α)
    (keys : KeyState) : ViewManager α :=
  let vm := if keys.escape then { vm with windowShouldClose := true } else vm
  match vm.g_pCamera with
  | none => vm
  | some cam =>
    let cam := movementKeys cops keys vm.gDeltaTime cam
    let st := presetKeys keys (cam, vm.bOrthographicProjection)
    { vm with g_pCamera := some st.1, bOrthographicProjection := st.2 }

/-- The value of the local `projection` after the `if (bOrthographicProjection == false)`
statement of `PrepareSceneView`, before the assignment that follows it. -/
def projectionByMode {α : Type} [Field α] (ops : FloatOps α) (tan : α → α)
    (bOrthographicProjection : Bool) (cam : Camera α) : Mat4 α :=
  if bOrthographicProjection = false then
    Mat4.perspective tan (radians ops cam.Zoom) ((WINDOW_WIDTH : α) / (WINDOW_HEIGHT : α))
      0.1 100.0
  else if WINDOW_WIDTH > WINDOW_HEIGHT then
    let scale : α := (WINDOW_HEIGHT : α) / (WINDOW_WIDTH : α)
    Mat4.ortho (-5.0) 5.0 (-5.0 * scale) (5.0 * scale) 0.1 100.0
  else if WINDOW_WIDTH < WINDOW_HEIGHT then
    let scale : α := (WINDOW_WIDTH : α) / (WINDOW_HEIGHT : α)
    Mat4.ortho (-5.0 * scale) (5.0 * scale) (-5.0) 5.0 0.1 100.0
  else Mat4.ortho (-5.0) 5.0 (-5.0) 5.0 0.1 100.0

/-- Locals `view` and `projection` of `PrepareSceneView`. -/
structure PrepareLocals (α : Type) where
  view : Mat4 α
  projection : Mat4 α

/-- Method `PrepareSceneView()`.  `currentFrame` is what `glfwGetTime()` returned.  After
the projection is chosen by mode, the statement
`projection = glm::perspective(glm::radians(g_pCamera->Zoom), ...)` assigns it again; the
camera pointer is dereferenced without a null test. -/
def PrepareSceneView {α : Type} [Field α] (vm : ViewManager α) (cops : CameraOps α)
    (ops : FloatOps α) (tan : α → α) (keys : KeyState) (currentFrame : α) :
    Except Fault (ViewManager α) :=
  let vm := { vm with gDeltaTime := currentFrame - vm.gLastFrame, gLastFrame := currentFrame }
  let vm := vm.ProcessKeyboardEvents cops keys
  match vm.g_pCamera with
  | none => .error .nullDereference
  | some cam =>
    let locals : PrepareLocals α :=
      { view := cops.GetViewMatrix cam
        projection := projectionByMode ops tan vm.bOrthographicProjection cam }
    let locals :=
      { locals with
        projection :=
          Mat4.perspective tan (radians ops cam.Zoom)
            ((WINDOW_WIDTH : α) / (WINDOW_HEIGHT : α)) 0.1 100.0 }
    match vm.m_pShaderManager with
    | some sh =>
      let sh := sh.setMat4Value g_ViewName locals.view
      let sh := sh.setMat4Value g_ProjectionName locals.projection
      let sh := sh.setVec3Value "viewPosition" cam.Position
      .ok { vm with m_pShaderManager := some sh }
    | none => .ok vm

/-- A run of mouse-move events, each handled by `Mouse_Position_Callback`. -/
def mouseMoves {α : Type} [LinearOrderedField α] (vm : ViewManager α) (ops : FloatOps α) :
    List (α × α) → Except Fault (ViewManager α)
  | [] => .ok vm
  | (x, y) :: rest =>
    match vm.Mouse_Position_Callback ops x y with
    | .ok vm1 => mouseMoves vm1 ops rest
    | .error f => .error f

end ViewManager

/-! ## The authored scene -/

namespace SceneManager

/-- Method `DefineObjectMaterials()`.  Each local `OBJECT_MATERIAL` is declared without an
initialiser; `uninit k` is the indeterminate content of the `k`-th local (in source order)
before its assignments. -/
def DefineObjectMaterials {α : Type} [Field α] (s : SceneManager α)
    (uninit : Nat → OBJECT_MATERIAL α) : SceneManager α :=
  let lightMaterial : OBJECT_MATERIAL α :=
    { uninit 0 with
      ambientColor := ⟨0.1, 0.1, 0.1⟩
      diffuseColor := ⟨0.8, 0.8, 0.8⟩
      specularColor := ⟨0.5, 0.5, 0.5⟩
      shininess := 10.0
      ambientStrength := 0.1
      tag := "LightMaterial" }
  let s := { s with m_objectMaterials := s.m_objectMaterials ++ [lightMaterial] }
  let monitorMaterial : OBJECT_MATERIAL α :=
    { uninit 1 with
      ambientColor := ⟨0.1, 0.1, 0.1⟩
      diffuseColor := ⟨0.2, 0.2, 0.2⟩
      specularColor := ⟨0.9, 0.9, 0.9⟩
      shininess := 32.0
      tag := "MonitorMaterial" }
  let s := { s with m_objectMaterials := s.m_objectMaterials ++ [monitorMaterial] }
  let reflectiveMaterial : OBJECT_MATERIAL α :=
    { uninit 2 with
      ambientColor := ⟨0.1, 0.1, 0.1⟩
      diffuseColor := ⟨0.8, 0.8, 0.8⟩
      specularColor := ⟨1.0, 1.0, 1.0⟩
      shininess := 64.0
      ambientStrength := 0.1
      tag := "ReflectPlane" }
  let s := { s with m_objectMaterials := s.m_objectMaterials ++ [reflectiveMaterial] }
  let deskMaterial : OBJECT_MATERIAL α :=
    { uninit 3 with
      ambientColor := ⟨0.6, 0.3, 0.1⟩
      diffuseColor := ⟨0.6, 0.3, 0.1⟩
      specularColor := ⟨0.3, 0.2, 0.1⟩
      shininess := 8.0
      tag := "DeskMaterial" }
  let s := { s with m_objectMaterials := s.m_objectMaterials ++ [deskMaterial] }
  let standMaterial : OBJECT_MATERIAL α :=
    { uninit 4 with
      ambientColor := ⟨0.5, 0.5, 0.5⟩
      diffuseColor := ⟨0.5, 0.5, 0.5⟩
      specularColor := ⟨0.7, 0.7, 0.7⟩
      shininess := 16.0
      tag := "StandMaterial" }
  let s := { s with m_objectMaterials := s.m_objectMaterials ++ [standMaterial] }
  let ps5Material : OBJECT_MATERIAL α :=
    { uninit 5 with
      ambientColor := ⟨0.2, 0.2, 0.2⟩
      diffuseColor := ⟨0.5, 0.5, 0.5⟩
      specularColor := ⟨0.7, 0.7, 0.7⟩
      shininess := 32.0
      tag := "PS5Material" }
  let s := { s with m_objectMaterials := s.m_objectMaterials ++ [ps5Material] }
  let speakerMaterial : OBJECT_MATERIAL α :=
    { uninit 6 with
      ambientColor := ⟨0.9, 0.9, 0.9⟩
      diffuseColor := ⟨1.0, 1.0, 1.0⟩
      specularColor := ⟨1.0, 1.0, 1.0⟩
      shininess := 64.0
      tag := "SpeakerMaterial" }
  let s := { s with m_objectMaterials := s.m_objectMaterials ++ [speakerMaterial] }
  s

/-- Method `SetupSceneLights()`.  The shader manager pointer is dereferenced without a null
test. -/
def SetupSceneLights {α : Type} [Field α] (s : SceneManager α) :
    Except Fault (SceneManager α) :=
  match s.m_pShaderManager with
  | none => .error .nullDereference
  | some sh =>
    let sh := sh.setVec3Value "lightSources[1].position" ⟨3.0, 10.0, -24.0⟩
    let sh := sh.setVec3Value "lightSources[1].ambientColor" ⟨0.05, 0.05, 0.025⟩
    let sh := sh.setVec3Value "lightSources[1].diffuseColor" ⟨0.5, 0.4, 0.2⟩
    let sh := sh.setVec3Value "lightSources[1].specularColor" ⟨0.5, 0.4, 0.2⟩
    let sh := sh.setFloatValue "lightSources[1].focalStrength" 8.0
    let sh := sh.setFloatValue "lightSources[1].specularIntensity" 1.0
    let sh := sh.setVec3Value "lightSources[2].position" ⟨0.0, 20.0, 0.0⟩
    let sh := sh.setVec3Value "lightSources[2].ambientColor" ⟨0.05, 0.05, 0.05⟩
    let sh := sh.setVec3Value "lightSources[2].diffuseColor" ⟨0.6, 0.6, 0.6⟩
    let sh := sh.setVec3Value "lightSources[2].specularColor" ⟨0.5, 0.5, 0.5⟩
    let sh := sh.setFloatValue "lightSources[2].focalStrength" 6.0
    let sh := sh.setFloatValue "lightSources[2].specularIntensity" 0.5
    let sh := sh.setVec3Value "lightSources[3].position" ⟨0.0, 2.7, 2.0⟩
    let sh := sh.setVec3Value "lightSources[3].ambientColor" ⟨0.1, 0.1, 0.1⟩
    let sh := sh.setVec3Value "lightSources[3].diffuseColor" ⟨0.7, 0.7, 0.7⟩
    let sh := sh.setVec3Value "lightSources[3].specularColor" ⟨0.9, 0.9, 0.9⟩
    let sh := sh.setFloatValue "lightSources[3].focalStrength" 2.0
    let sh := sh.setFloatValue "lightSources[3].specularIntensity" 1.0
    let sh := sh.setBoolValue "bUseLighting" true
    .ok { s with m_pShaderManager := some sh }

/-- Method `LoadSceneTextures()`: eight `CreateGLTexture` calls, whose results are not
tested, then `BindGLTextures()`.  `decode file` is what `stbi_load` returns for the file
and `gen k` the name `glGenTextures` hands out in the `k`-th call. -/
def LoadSceneTextures {α : Type} (s : SceneManager α) (decode : String → Option StbImage)
    (gen : Nat → Nat) : Except Fault (SceneManager α) := do
  let (_, s) ← s.CreateGLTexture (decode "../../Utilities/textures/floor.jpg") (gen 0) "floor"
  let (_, s) ← s.CreateGLTexture (decode "../../Utilities/textures/knife_handle.jpg") (gen 1) "wood"
  let (_, s) ← s.CreateGLTexture (decode "../../Utilities/textures/stainless.jpg") (gen 2) "stainless"
  let (_, s) ← s.CreateGLTexture (decode "../../Utilities/textures/stainless_end.jpg") (gen 3) "stainlessend"
  let (_, s) ← s.CreateGLTexture (decode "../../Utilities/textures/Galaga.jpg") (gen 4) "game"
  let (_, s) ← s.CreateGLTexture (decode "../../Utilities/textures/Blackgloss.jpg") (gen 5) "Blackgloss"
  let (_, s) ← s.CreateGLTexture (decode "../../Utilities/textures/Whitetex.jpg") (gen 6) "Whitetex"
  let (_, s) ← s.CreateGLTexture (decode "../../Utilities/textures/WhiteMarble.jpg") (gen 7) "Whitemarb"
  let _ ← s.BindGLTextures
  pure s

/-- Method `PrepareScene()`, without the mesh loading, which touches no member modelled
here. -/
def PrepareScene {α : Type} [Field α] (s : SceneManager α)
    (uninit : Nat → OBJECT_MATERIAL α) (decode : String → Option StbImage)
    (gen : Nat → Nat) : Except Fault (SceneManager α) := do
  let s := s.DefineObjectMaterials uninit
  let s ← s.SetupSceneLights
  s.LoadSceneTextures decode gen

/-- A call `RenderScene` makes: one of the four shader-state setters with its arguments, or
a draw call on `m_basicMeshes`. -/
inductive SceneCall (α : Type) where
  | SetShaderMaterial (materialTag : String)
  | SetTransformations (scaleXYZ : Vec3 α) (XrotationDegrees YrotationDegrees
      ZrotationDegrees : α) (positionXYZ : Vec3 α)
  | SetShaderTexture (textureTag : String)
  | SetShaderColor (r g b a : α)
  | DrawBoxMesh
  | DrawCylinderMesh
  | DrawSphereMesh
  | DrawPlaneMesh

/-- The calls of `RenderScene()`, in source order, with the values the locals `scaleXYZ`,
the three rotation angles and `positionXYZ` hold at each `SetTransformations`. -/
def renderSceneCalls {α : Type} [Field α] : List (SceneCall α) :=
  [
   .SetShaderMaterial "PS5Material",
   .SetTransformations ⟨0.3, 1.5, 0.6⟩ 0.0 0.0 0.0 ⟨-2.0, 2.25, 0.25⟩,
   .SetShaderTexture "Blackgloss",
   .DrawBoxMesh,
   .SetShaderMaterial "PS5Material",
   .SetTransformations ⟨0.03, 1.7, 0.7⟩ 0.0 0.0 0.0 ⟨-2.15, 2.26, 0.25⟩,
   .SetShaderTexture "Whitetex",
   .DrawBoxMesh,
   .SetShaderMaterial "PS5Material",
   .SetTransformations ⟨0.03, 1.7, 0.7⟩ 0.0 0.0 0.0 ⟨-1.85, 2.26, 0.25⟩,
   .SetShaderTexture "Whitetex",
   .DrawBoxMesh,
   .SetShaderMaterial "PS5Material",
   .SetTransformations ⟨0.3, 0.05, 0.3⟩ 0.0 0.0 0.0 ⟨-2.0, 1.6, 0.25⟩,
   .SetShaderTexture "Blackgloss",
   .DrawCylinderMesh,
   .SetShaderMaterial "MonitorMaterial",
   .SetTransformations ⟨3.0, 1.8, 0.1⟩ 0.0 0.0 0.0 ⟨0.0, 2.7, 0.0⟩,
   .SetShaderTexture "stainless",
   .SetShaderTexture "stainlessend",
   .DrawBoxMesh,
   .SetShaderMaterial "MonitorMaterial",
   .SetTransformations ⟨2.8, 1.6, 0.1⟩ 0.0 0.0 0.0 ⟨0.0, 2.7, 0.05⟩,
   .SetShaderTexture "game",
   .DrawBoxMesh,
   .SetShaderMaterial "StandMaterial",
   .SetTransformations ⟨1.0, 0.1, 0.5⟩ 0.0 0.0 0.0 ⟨0.0, 1.6, -0.14⟩,
   .SetShaderTexture "stainless",
   .DrawBoxMesh,
   .SetShaderMaterial "StandMaterial",
   .SetTransformations ⟨0.1, 0.9, 0.1⟩ 0.0 0.0 0.0 ⟨0.0, 1.6, -0.14⟩,
   .SetShaderTexture "stainless",
   .DrawCylinderMesh,
   .SetShaderMaterial "SpeakerMaterial",
   .SetTransformations ⟨0.2, 0.05, 0.2⟩ 0.0 0.0 0.0 ⟨-1.3, 1.63, 0.3⟩,
   .SetShaderTexture "Whitemarb",
   .DrawCylinderMesh,
   .SetShaderMaterial "SpeakerMaterial",
   .SetTransformations ⟨0.2, 0.15, 0.2⟩ 0.0 0.0 0.0 ⟨-1.3, 1.73, 0.3⟩,
   .SetShaderTexture "Whitemarb",
   .DrawSphereMesh,
   .SetShaderMaterial "DeskMaterial",
   .SetTransformations ⟨6.0, 0.2, 2.5⟩ 0.0 0.0 0.0 ⟨0.0, 1.5, 0.0⟩,
   .SetShaderTexture "wood",
   .DrawBoxMesh,
   .SetShaderMaterial "DeskMaterial",
   .SetTransformations ⟨0.2, 1.5, 0.2⟩ 0.0 0.0 0.0 ⟨-2.8, 0.75, 1.2⟩,
   .SetShaderTexture "wood",
   .DrawBoxMesh,
   .SetShaderMaterial "DeskMaterial",
   .SetTransformations ⟨0.2, 1.5, 0.2⟩ 0.0 0.0 0.0 ⟨2.8, 0.75, 1.2⟩,
   .SetShaderTexture "wood",
   .DrawBoxMesh,
   .SetShaderMaterial "DeskMaterial",
   .SetTransformations ⟨0.2, 1.5, 0.2⟩ 0.0 0.0 0.0 ⟨-2.8, 0.75, -1.2⟩,
   .SetShaderTexture "wood",
   .DrawBoxMesh,
   .SetShaderMaterial "DeskMaterial",
   .SetTransformations ⟨0.2, 1.5, 0.2⟩ 0.0 0.0 0.0 ⟨2.8, 0.75, -1.2⟩,
   .SetShaderTexture "wood",
   .DrawBoxMesh,
   .SetTransformations ⟨20.0, 1.0, 10.0⟩ 0.0 0.0 0.0 ⟨0.0, 0.0, 0.0⟩,
   .SetShaderColor 1 1 1 1,
   .SetShaderTexture "floor",
   .SetShaderMaterial "ReflectPlane",
   .DrawPlaneMesh
  ]

/-- The effect of one call of `RenderScene` on the scene manager; a draw call changes no
member.  `uninit` is the indeterminate content of the local of `SetShaderMaterial`. -/
def runSceneCall {α : Type} [Ring α] (ops : FloatOps α) (uninit : OBJECT_MATERIAL α)
    (s : SceneManager α) : SceneCall α → Except Fault (SceneManager α)
  | .SetShaderMaterial materialTag => s.SetShaderMaterial materialTag uninit
  | .SetTransformations scaleXYZ rx ry rz positionXYZ =>
    .ok (s.SetTransformations ops scaleXYZ rx ry rz positionXYZ)
  | .SetShaderTexture textureTag => s.SetShaderTexture textureTag
  | .SetShaderColor r g b a => .ok (s.SetShaderColor r g b a)
  | .DrawBoxMesh => .ok s
  | .DrawCylinderMesh => .ok s
  | .DrawSphereMesh => .ok s
  | .DrawPlaneMesh => .ok s

/-- A run of scene calls, in order. -/
def runSceneCalls {α : Type} [Ring α] (ops : FloatOps α) (uninit : OBJECT_MATERIAL α)
    (s : SceneManager α) : List (SceneCall α) → Except Fault (SceneManager α)
  | [] => .ok s
  | c :: rest =>
    match runSceneCall ops uninit s c with
    | .ok s1 => runSceneCalls ops uninit s1 rest
    | .error f => .error f

/-- Method `RenderScene()`. -/
def RenderScene {α : Type} [Field α] (s : SceneManager α) (ops : FloatOps α)
    (uninit : OBJECT_MATERIAL α) : Except Fault (SceneManager α) :=
  runSceneCalls ops uninit s renderSceneCalls

namespace SceneCall

/-- Whether the call is one of the four draw calls. -/
def isDraw {α : Type} : SceneCall α → Bool
  | .DrawBoxMesh => true
  | .DrawCylinderMesh => true
  | .DrawSphereMesh => true
  | .DrawPlaneMesh => true
  | _ => false

/-- Whether the call is `SetShaderMaterial`. -/
def isMaterial {α : Type} : SceneCall α → Bool
  | .SetShaderMaterial _ => true
  | _ => false

/-- Whether the call is `SetTransformations`. -/
def isTransform {α : Type} : SceneCall α → Bool
  | .SetTransformations _ _ _ _ _ => true
  | _ => false

/-- Whether the call is `SetShaderTexture` or `SetShaderColor`. -/
def isSurface {α : Type} : SceneCall α → Bool
  | .SetShaderTexture _ => true
  | .SetShaderColor _ _ _ _ => true
  | _ => false

end SceneCall

/-- The calls issued before position `i` and after the previous draw call (or the start),
latest first. -/
def callsSinceLastDraw {α : Type} (calls : List (SceneCall α)) (i : Nat) :
    List (SceneCall α) :=
  (calls.take i).reverse.takeWhile (fun c => !c.isDraw)

/-- The tags passed to `SetShaderMaterial`, in call order. -/
def materialTagsUsed {α : Type} (calls : List (SceneCall α)) : List String :=
  calls.filterMap (fun c => match c with
    | .SetShaderMaterial tag => some tag
    | _ => none)

/-- The tags passed to `SetShaderTexture`, in call order. -/
def textureTagsUsed {α : Type} (calls : List (SceneCall α)) : List String :=
  calls.filterMap (fun c => match c with
    | .SetShaderTexture tag => some tag
    | _ => none)

/-- The tags of the registered textures, slots `0 .. m_loadedTextures - 1`. -/
def registeredTags {α : Type} (s : SceneManager α) : List String :=
  (s.m_textureIDs.take s.m_loadedTextures.toNat).map (fun e => e.tag)

end SceneManager

/-! ## Rotations of a point, as the specification words them -/

/-- Rotation of the point `v` about the x axis by the angle `a` (radians). -/
def specRotateX {α : Type} [Ring α] (ops : FloatOps α) (a : α) (v : Vec3 α) : Vec3 α :=
  ⟨v.x, ops.cos a * v.y - ops.sin a * v.z, ops.sin a * v.y + ops.cos a * v.z⟩

/-- Rotation of the point `v` about the y axis by the angle `a` (radians). -/
def specRotateY {α : Type} [Ring α] (ops : FloatOps α) (a : α) (v : Vec3 α) : Vec3 α :=
  ⟨ops.cos a * v.x + ops.sin a * v.z, v.y, ops.cos a * v.z - ops.sin a * v.x⟩

/-- Rotation of the point `v` about the z axis by the angle `a` (radians). -/
def specRotateZ {α : Type} [Ring α] (ops : FloatOps α) (a : α) (v : Vec3 α) : Vec3 α :=
  ⟨ops.cos a * v.x - ops.sin a * v.y, ops.sin a * v.x + ops.cos a * v.y, v.z⟩

/-- The point `t + Rx(Ry(Rz(s∘p)))`: componentwise scale, then the rotations about z, y
and x by the given degree values, then the translation. -/
def specTransform {α : Type} [Ring α] (ops : FloatOps α) (scaleXYZ : Vec3 α)
    (XrotationDegrees YrotationDegrees ZrotationDegrees : α) (positionXYZ p : Vec3 α) :
    Vec3 α :=
  let scaled : Vec3 α := ⟨scaleXYZ.x * p.x, scaleXYZ.y * p.y, scaleXYZ.z * p.z⟩
  let r := specRotateX ops (radians ops XrotationDegrees)
    (specRotateY ops (radians ops YrotationDegrees)
      (specRotateZ ops (radians ops ZrotationDegrees) scaled))
  ⟨positionXYZ.x + r.x, positionXYZ.y + r.y, positionXYZ.z + r.z⟩

/-- The homogeneous point `(v, 1)`. -/
def Vec3.toPoint {α : Type} [One α] (v : Vec3 α) : Vec4 α :=
  ⟨v.x, v.y, v.z, 1⟩

/-! ## Sample states -/

/-- A registry with three registered textures; the tag `wood` occurs at slots 1 and 2. -/
def sampleScene : SceneManager ℚ :=
  { emptyScene ℚ with
    m_loadedTextures := 3
    m_textureIDs :=
      [⟨"floor", 1⟩, ⟨"wood", 2⟩, ⟨"wood", 3⟩] ++ List.replicate 13 ⟨"", 0⟩ }

/-- A registry with one texture whose OpenGL name is the largest `GLuint`. -/
def maxHandleScene : SceneManager ℚ :=
  { emptyScene ℚ with
    m_loadedTextures := 1
    m_textureIDs := [⟨"t", 4294967295⟩] ++ List.replicate 15 ⟨"", 0⟩ }

/-- Sixteen decodable three-channel images, loaded under the tags `a`. -/
def sixteenLoads : List (Option StbImage × Nat × String) :=
  List.replicate 16 (some ⟨64, 64, 3⟩, 5, "a")

/-- The end-to-end sequence `CreateGLTexture(file, tag); BindGLTextures();
FindTextureSlot(tag)`. -/
def loadBindFind {α : Type} (s : SceneManager α) (image : Option StbImage) (genTexture : Nat)
    (tag : String) : Except Fault Int :=
  match s.CreateGLTexture image genTexture tag with
  | .ok (_, s1) =>
    match s1.BindGLTextures with
    | .ok _ => s1.FindTextureSlot tag
    | .error f => .error f
  | .error f => .error f

/-- A material tagged `metal`. -/
def metalMaterial : OBJECT_MATERIAL ℚ :=
  ⟨⟨1, 2, 3⟩, 4, ⟨5, 6, 7⟩, ⟨8, 9, 10⟩, 11, "metal"⟩

/-- A second material tagged `metal`, with different parameters. -/
def metalMaterial2 : OBJECT_MATERIAL ℚ :=
  ⟨⟨21, 22, 23⟩, 24, ⟨25, 26, 27⟩, ⟨28, 29, 30⟩, 31, "metal"⟩

/-- A material tagged `glass`. -/
def glassMaterial : OBJECT_MATERIAL ℚ :=
  ⟨⟨41, 42, 43⟩, 44, ⟨45, 46, 47⟩, ⟨48, 49, 50⟩, 51, "glass"⟩

/-- A scene manager whose catalog is `glass, metal, metal` and whose shader manager has
received nothing yet. -/
def catalogScene : SceneManager ℚ :=
  { emptyScene ℚ with m_objectMaterials := [glassMaterial, metalMaterial, metalMaterial2] }

/-- Only the key O pressed. -/
def KeyState.onlyO : KeyState := { KeyState.released with o := true }

/-- Only the key 2 pressed. -/
def KeyState.only2 : KeyState := { KeyState.released with key2 := true }

/-- Only the key 3 pressed. -/
def KeyState.only3 : KeyState := { KeyState.released with key3 := true }

/-- Only the key P pressed. -/
def KeyState.onlyP : KeyState := { KeyState.released with p := true }

/-! ## Loops -/

theorem whileLoop_done {σ : Type} (cond : σ → Bool) (body : σ → Except Fault σ) (fuel : Nat)
    (st : σ) (h : cond st = false) : whileLoop cond body fuel st = .ok st := by
  cases fuel <;> simp [whileLoop, h]

theorem readTexture_of_lt {α : Type} (s : SceneManager α) (i : Nat)
    (h : i < s.m_textureIDs.length) :
    s.readTexture i = .ok (s.m_textureIDs.get ⟨i, h⟩) := by
  simp [SceneManager.readTexture, List.getElem?_eq_getElem h]

/-- The scan of `FindTextureSlot` started at `index = i` ends with `textureSlot = -1` when
no entry in `i .. count-1` carries the tag, and with the least such index otherwise. -/
theorem findSlotLoop_spec {α : Type} (s : SceneManager α) (tag : String)
    (hwf : s.m_loadedTextures ≤ (s.m_textureIDs.length : Int)) :
    ∀ (fuel i : Nat), (s.m_loadedTextures - i).toNat < fuel →
      ∃ st, whileLoop s.findSlotCond (s.findSlotBody tag) fuel ⟨-1, i, false⟩ = .ok st ∧
        ((st.textureSlot = -1 ∧
            ∀ (j : Nat) (e : TEXTURE_INFO), i ≤ j → (j : Int) < s.m_loadedTextures →
              s.m_textureIDs[j]? = some e → e.tag ≠ tag) ∨
          (∃ (k : Nat) (e : TEXTURE_INFO), st.textureSlot = (k : Int) ∧ i ≤ k ∧
            (k : Int) < s.m_loadedTextures ∧ s.m_textureIDs[k]? = some e ∧ e.tag = tag ∧
            ∀ (j : Nat) (e1 : TEXTURE_INFO), i ≤ j → j < k →
              s.m_textureIDs[j]? = some e1 → e1.tag ≠ tag)) := by
  intro fuel
  induction fuel with
  | zero => intro i h; omega
  | succ fuel ih =>
    intro i hfuel
    by_cases hlt : (i : Int) < s.m_loadedTextures
    · have hlen : i < s.m_textureIDs.length := by omega
      have hget : s.m_textureIDs[i]? = some (s.m_textureIDs.get ⟨i, hlen⟩) :=
        List.getElem?_eq_getElem hlen
      by_cases htag : (s.m_textureIDs.get ⟨i, hlen⟩).tag = tag
      · refine ⟨⟨(i : Int), i, true⟩, ?_, Or.inr ⟨i, _, rfl, le_refl i, hlt, hget, htag, ?_⟩⟩
        · simp only [whileLoop, SceneManager.findSlotCond, SceneManager.findSlotBody,
            readTexture_of_lt s i hlen, hlt, htag]
          simp [whileLoop_done, SceneManager.findSlotCond]
        · intro j e1 h1 h2; omega
      · obtain ⟨st, hst, hD⟩ := ih (i + 1) (by omega)
        refine ⟨st, ?_, ?_⟩
        · simp only [whileLoop, SceneManager.findSlotCond, SceneManager.findSlotBody,
            readTexture_of_lt s i hlen, hlt, htag]
          simpa using hst
        · rcases hD with ⟨h1, h2⟩ | ⟨k, e, h1, h2, h3, h4, h5, h6⟩
          · refine Or.inl ⟨h1, ?_⟩
            intro j e hij hj hje
            by_cases hji : j = i
            · subst hji
              rw [hget] at hje
              cases hje
              exact htag
            · exact h2 j e (by omega) hj hje
          · refine Or.inr ⟨k, e, h1, by omega, h3, h4, h5, ?_⟩
            intro j e1 hij hjk hje
            by_cases hji : j = i
            · subst hji
              rw [hget] at hje
              cases hje
              exact htag
            · exact h6 j e1 (by omega) hjk hje
    · refine ⟨⟨-1, i, false⟩, ?_, Or.inl ⟨rfl, ?_⟩⟩
      · apply whileLoop_done
        simp [SceneManager.findSlotCond, hlt]
      · intro j e hij hj; omega

/-- The scan of `FindTextureID` started at `index = i` ends with `textureID = -1` when no
entry in `i .. count-1` carries the tag, and otherwise with the converted handle of the
entry at the least such index. -/
theorem findIDLoop_spec {α : Type} (s : SceneManager α) (tag : String)
    (hwf : s.m_loadedTextures ≤ (s.m_textureIDs.length : Int)) :
    ∀ (fuel i : Nat), (s.m_loadedTextures - i).toNat < fuel →
      ∃ st, whileLoop s.findIDCond (s.findIDBody tag) fuel ⟨-1, i, false⟩ = .ok st ∧
        ((st.textureID = -1 ∧
            ∀ (j : Nat) (e : TEXTURE_INFO), i ≤ j → (j : Int) < s.m_loadedTextures →
              s.m_textureIDs[j]? = some e → e.tag ≠ tag) ∨
          (∃ (k : Nat) (e : TEXTURE_INFO), st.textureID = glUintToInt e.ID ∧ i ≤ k ∧
            (k : Int) < s.m_loadedTextures ∧ s.m_textureIDs[k]? = some e ∧ e.tag = tag ∧
            ∀ (j : Nat) (e1 : TEXTURE_INFO), i ≤ j → j < k →
              s.m_textureIDs[j]? = some e1 → e1.tag ≠ tag)) := by
  intro fuel
  induction fuel with
  | zero => intro i h; omega
  | succ fuel ih =>
    intro i hfuel
    by_cases hlt : (i : Int) < s.m_loadedTextures
    · have hlen : i < s.m_textureIDs.length := by omega
      have hget : s.m_textureIDs[i]? = some (s.m_textureIDs.get ⟨i, hlen⟩) :=
        List.getElem?_eq_getElem hlen
      by_cases htag : (s.m_textureIDs.get ⟨i, hlen⟩).tag = tag
      · refine ⟨⟨glUintToInt (s.m_textureIDs.get ⟨i, hlen⟩).ID, i, true⟩, ?_,
          Or.inr ⟨i, _, rfl, le_refl i, hlt, hget, htag, ?_⟩⟩
        · simp only [whileLoop, SceneManager.findIDCond, SceneManager.findIDBody,
            readTexture_of_lt s i hlen, hlt, htag]
          simp [whileLoop_done, SceneManager.findIDCond]
        · intro j e1 h1 h2; omega
      · obtain ⟨st, hst, hD⟩ := ih (i + 1) (by omega)
        refine ⟨st, ?_, ?_⟩
        · simp only [whileLoop, SceneManager.findIDCond, SceneManager.findIDBody,
            readTexture_of_lt s i hlen, hlt, htag]
          simpa using hst
        · rcases hD with ⟨h1, h2⟩ | ⟨k, e, h1, h2, h3, h4, h5, h6⟩
          · refine Or.inl ⟨h1, ?_⟩
            intro j e hij hj hje
            by_cases hji : j = i
            · subst hji
              rw [hget] at hje
              cases hje
              exact htag
            · exact h2 j e (by omega) hj hje
          · refine Or.inr ⟨k, e, h1, by omega, h3, h4, h5, ?_⟩
            intro j e1 hij hjk hje
            by_cases hji : j = i
            · subst hji
              rw [hget] at hje
              cases hje
              exact htag
            · exact h6 j e1 (by omega) hjk hje
    · refine ⟨⟨-1, i, false⟩, ?_, Or.inl ⟨rfl, ?_⟩⟩
      · apply whileLoop_done
        simp [SceneManager.findIDCond, hlt]
      · intro j e hij hj; omega

/-- On a registry whose count does not exceed the array length, `FindTextureSlot` returns
`-1` or the least index below the count whose tag matches. -/
theorem findTextureSlot_cases {α : Type} (s : SceneManager α) (tag : String)
    (hwf : s.m_loadedTextures ≤ (s.m_textureIDs.length : Int)) :
    (s.FindTextureSlot tag = .ok (-1) ∧
        ∀ (j : Nat) (e : TEXTURE_INFO), (j : Int) < s.m_loadedTextures →
          s.m_textureIDs[j]? = some e → e.tag ≠ tag) ∨
      (∃ (k : Nat) (e : TEXTURE_INFO), s.FindTextureSlot tag = .ok (k : Int) ∧
        (k : Int) < s.m_loadedTextures ∧ s.m_textureIDs[k]? = some e ∧ e.tag = tag ∧
        ∀ (j : Nat) (e1 : TEXTURE_INFO), j < k →
          s.m_textureIDs[j]? = some e1 → e1.tag ≠ tag) := by
  obtain ⟨st, hst, hD⟩ := findSlotLoop_spec s tag hwf (s.m_loadedTextures.toNat + 1) 0 (by omega)
  have hres : s.FindTextureSlot tag = .ok st.textureSlot := by
    simp [SceneManager.FindTextureSlot, hst]
  rcases hD with ⟨h1, h2⟩ | ⟨k, e, h1, _, h3, h4, h5, h6⟩
  · exact Or.inl ⟨by rw [hres, h1], fun j e hj => h2 j e (Nat.zero_le j) hj⟩
  · exact Or.inr ⟨k, e, by rw [hres, h1], h3, h4, h5, fun j e1 => h6 j e1 (Nat.zero_le j)⟩

/-- On a registry whose count does not exceed the array length, `FindTextureID` returns `-1`
or the converted handle of the entry at the least index below the count whose tag matches. -/
theorem findTextureID_cases {α : Type} (s : SceneManager α) (tag : String)
    (hwf : s.m_loadedTextures ≤ (s.m_textureIDs.length : Int)) :
    (s.FindTextureID tag = .ok (-1) ∧
        ∀ (j : Nat) (e : TEXTURE_INFO), (j : Int) < s.m_loadedTextures →
          s.m_textureIDs[j]? = some e → e.tag ≠ tag) ∨
      (∃ (k : Nat) (e : TEXTURE_INFO), s.FindTextureID tag = .ok (glUintToInt e.ID) ∧
        (k : Int) < s.m_loadedTextures ∧ s.m_textureIDs[k]? = some e ∧ e.tag = tag ∧
        ∀ (j : Nat) (e1 : TEXTURE_INFO), j < k →
          s.m_textureIDs[j]? = some e1 → e1.tag ≠ tag) := by
  obtain ⟨st, hst, hD⟩ := findIDLoop_spec s tag hwf (s.m_loadedTextures.toNat + 1) 0 (by omega)
  have hres : s.FindTextureID tag = .ok st.textureID := by
    simp [SceneManager.FindTextureID, hst]
  rcases hD with ⟨h1, h2⟩ | ⟨k, e, h1, _, h3, h4, h5, h6⟩
  · exact Or.inl ⟨by rw [hres, h1], fun j e hj => h2 j e (Nat.zero_le j) hj⟩
  · exact Or.inr ⟨k, e, by rw [hres, h1], h3, h4, h5, fun j e1 => h6 j e1 (Nat.zero_le j)⟩

/-- Two first matches of one tag are the same index and entry. -/
theorem firstMatch_unique {entries : List TEXTURE_INFO} {tag : String} {k k1 : Nat}
    {e e1 : TEXTURE_INFO} (hk : entries[k]? = some e) (hke : e.tag = tag)
    (hmin : ∀ (j : Nat) (e2 : TEXTURE_INFO), j < k → entries[j]? = some e2 → e2.tag ≠ tag)
    (hk1 : entries[k1]? = some e1) (hke1 : e1.tag = tag)
    (hmin1 : ∀ (j : Nat) (e2 : TEXTURE_INFO), j < k1 → entries[j]? = some e2 → e2.tag ≠ tag) :
    k = k1 ∧ e = e1 := by
  have hkk : k = k1 := by
    rcases Nat.lt_trichotomy k k1 with h | h | h
    · exact absurd hke (hmin1 k e h hk)
    · exact h
    · exact absurd hke1 (hmin k1 e1 h hk1)
  subst hkk
  rw [hk] at hk1
  exact ⟨rfl, by cases hk1; rfl⟩

/-- A first match at index `k` makes `FindTextureSlot` return `k`. -/
theorem findTextureSlot_of_first {α : Type} (s : SceneManager α) (tag : String)
    (hwf : s.m_loadedTextures ≤ (s.m_textureIDs.length : Int)) (k : Nat) (e : TEXTURE_INFO)
    (hk : (k : Int) < s.m_loadedTextures) (hke : s.m_textureIDs[k]? = some e)
    (htag : e.tag = tag)
    (hmin : ∀ (j : Nat) (e1 : TEXTURE_INFO), j < k →
      s.m_textureIDs[j]? = some e1 → e1.tag ≠ tag) :
    s.FindTextureSlot tag = .ok (k : Int) := by
  rcases findTextureSlot_cases s tag hwf with ⟨_, h2⟩ | ⟨k1, e1, h1, _, h4, h5, h6⟩
  · exact absurd htag (h2 k e hk hke)
  · obtain ⟨hkk, _⟩ := firstMatch_unique hke htag hmin h4 h5 h6
    rw [h1, hkk]

/-- With no match below the count `FindTextureSlot` returns `-1`. -/
theorem findTextureSlot_of_none {α : Type} (s : SceneManager α) (tag : String)
    (hwf : s.m_loadedTextures ≤ (s.m_textureIDs.length : Int))
    (hno : ∀ (j : Nat) (e : TEXTURE_INFO), (j : Int) < s.m_loadedTextures →
      s.m_textureIDs[j]? = some e → e.tag ≠ tag) :
    s.FindTextureSlot tag = .ok (-1) := by
  rcases findTextureSlot_cases s tag hwf with ⟨h1, _⟩ | ⟨k1, e1, _, h3, h4, h5, _⟩
  · exact h1
  · exact absurd h5 (hno k1 e1 h3 h4)

/-- The loop of `BindGLTextures` reads only indices below the count, so it finishes without
a fault on a registry whose count does not exceed the array length. -/
theorem bindLoop_ok {α : Type} (s : SceneManager α)
    (hwf : s.m_loadedTextures ≤ (s.m_textureIDs.length : Int)) :
    ∀ (fuel i : Nat) (calls : List SceneManager.GLCall),
      (s.m_loadedTextures - i).toNat ≤ fuel →
      ∃ st, whileLoop s.bindCond s.bindBody fuel ⟨i, calls⟩ = .ok st := by
  intro fuel
  induction fuel with
  | zero =>
    intro i calls h
    refine ⟨⟨i, calls⟩, whileLoop_done _ _ _ _ ?_⟩
    have hge : ¬ ((i : Int) < s.m_loadedTextures) := by omega
    simp [SceneManager.bindCond, hge]
  | succ fuel ih =>
    intro i calls h
    by_cases hlt : (i : Int) < s.m_loadedTextures
    · have hlen : i < s.m_textureIDs.length := by omega
      obtain ⟨st, hst⟩ := ih (i + 1)
        (calls ++ [.activeTexture i, .bindTexture2D (s.m_textureIDs.get ⟨i, hlen⟩).ID])
        (by omega)
      refine ⟨st, ?_⟩
      simp only [whileLoop, SceneManager.bindCond, SceneManager.bindBody,
        readTexture_of_lt s i hlen, hlt]
      simpa using hst
    · refine ⟨⟨i, calls⟩, whileLoop_done _ _ _ _ ?_⟩
      simp [SceneManager.bindCond, hlt]

theorem bindGLTextures_ok {α : Type} (s : SceneManager α)
    (hwf : s.m_loadedTextures ≤ (s.m_textureIDs.length : Int)) :
    ∃ calls, s.BindGLTextures = .ok calls := by
  obtain ⟨st, hst⟩ := bindLoop_ok s hwf s.m_loadedTextures.toNat 0 [] (by omega)
  exact ⟨st.calls, by simp [SceneManager.BindGLTextures, hst]⟩

/-- The state a registering `CreateGLTexture` call leaves. -/
theorem createGLTexture_registers {α : Type} (s : SceneManager α) (img : StbImage)
    (genTexture : Nat) (tag : String)
    (hch : img.colorChannels = 3 ∨ img.colorChannels = 4)
    (h0 : 0 ≤ s.m_loadedTextures)
    (hfree : s.m_loadedTextures < (s.m_textureIDs.length : Int)) :
    s.CreateGLTexture (some img) genTexture tag =
      .ok (true,
        { s with
          m_textureIDs :=
            s.m_textureIDs.set s.m_loadedTextures.toNat ⟨tag, genTexture % 2 ^ 32⟩
          m_loadedTextures := s.m_loadedTextures + 1 }) := by
  rcases hch with h | h
  · simp [SceneManager.CreateGLTexture, SceneManager.registerTexture, h, h0, hfree]
  · simp [SceneManager.CreateGLTexture, SceneManager.registerTexture, h, h0, hfree]

/-- A `CreateGLTexture` call that returns `true` found a free array element and registered
the texture in it. -/
theorem createGLTexture_true_inv {α : Type} (s s1 : SceneManager α) (image : Option StbImage)
    (genTexture : Nat) (tag : String)
    (hok : s.CreateGLTexture image genTexture tag = .ok (true, s1)) :
    0 ≤ s.m_loadedTextures ∧ s.m_loadedTextures < (s.m_textureIDs.length : Int) ∧
      s1 = { s with
        m_textureIDs :=
          s.m_textureIDs.set s.m_loadedTextures.toNat ⟨tag, genTexture % 2 ^ 32⟩
        m_loadedTextures := s.m_loadedTextures + 1 } := by
  cases image with
  | none => simp [SceneManager.CreateGLTexture] at hok
  | some img =>
    unfold SceneManager.CreateGLTexture SceneManager.registerTexture at hok
    simp only at hok
    split_ifs at hok with h3 hb h4 hb
    · injection hok with hok
      injection hok with _ hs
      exact ⟨hb.1, hb.2, hs.symm⟩
    · injection hok with hok
      injection hok with _ hs
      exact ⟨hb.1, hb.2, hs.symm⟩
    · injection hok with hok
      injection hok with hf _
      exact absurd hf (by decide)

/-- After a registering call the new entry is a match for its tag, so `FindTextureSlot` and
`FindTextureID` both find a first match. -/
theorem registered_found {α : Type} (s : SceneManager α) (genTexture : Nat) (tag : String)
    (h0 : 0 ≤ s.m_loadedTextures)
    (hfree : s.m_loadedTextures < (s.m_textureIDs.length : Int)) (s1 : SceneManager α)
    (hs1 : s1 = { s with
        m_textureIDs :=
          s.m_textureIDs.set s.m_loadedTextures.toNat ⟨tag, genTexture % 2 ^ 32⟩
        m_loadedTextures := s.m_loadedTextures + 1 }) :
    s1.m_loadedTextures ≤ (s1.m_textureIDs.length : Int) ∧
      ((s.m_loadedTextures.toNat : Nat) : Int) < s1.m_loadedTextures ∧
      s1.m_textureIDs[s.m_loadedTextures.toNat]? = some ⟨tag, genTexture % 2 ^ 32⟩ ∧
      ∀ (j : Nat), j ≠ s.m_loadedTextures.toNat → s1.m_textureIDs[j]? = s.m_textureIDs[j]? := by
  subst hs1
  have hlen : s.m_loadedTextures.toNat < s.m_textureIDs.length := by omega
  refine ⟨?_, ?_, ?_, ?_⟩
  · simp only [List.length_set]; omega
  · simp only; omega
  · simp only [List.getElem?_set_self hlen]
  · intro j hj
    simp only [List.getElem?_set_ne (Ne.symm hj)]

/-! ## Texture registry: lookups -/

/-- C1: on every texture registry (count at most the array length) and for every tag,
`FindTextureSlot` returns the least index below the count whose stored tag equals the tag,
and returns `-1` when no index below the count carries the tag, in particular when the
count is zero. -/
theorem findTextureSlot_least_index {α : Type} (s : SceneManager α) (tag : String)
    (hwf : s.m_loadedTextures ≤ (s.m_textureIDs.length : Int)) :
    (∀ (k : Nat) (e : TEXTURE_INFO), (k : Int) < s.m_loadedTextures →
        s.m_textureIDs[k]? = some e → e.tag = tag →
        (∀ (j : Nat) (e1 : TEXTURE_INFO), j < k →
          s.m_textureIDs[j]? = some e1 → e1.tag ≠ tag) →
        s.FindTextureSlot tag = .ok (k : Int)) ∧
      ((∀ (j : Nat) (e : TEXTURE_INFO), (j : Int) < s.m_loadedTextures →
          s.m_textureIDs[j]? = some e → e.tag ≠ tag) →
        s.FindTextureSlot tag = .ok (-1)) ∧
      (s.m_loadedTextures = 0 → s.FindTextureSlot tag = .ok (-1)) := by
  refine ⟨?_, ?_, ?_⟩
  · intro k e hk hke htag hmin
    exact findTextureSlot_of_first s tag hwf k e hk hke htag hmin
  · intro hno
    exact findTextureSlot_of_none s tag hwf hno
  · intro h0
    apply findTextureSlot_of_none s tag hwf
    intro j e hj
    omega

/-- C1 at the sample registry: the tag `wood` sits at slots 1 and 2 and the lookup returns
the lower one; the comparison is case-sensitive, so `Wood` is absent. -/
theorem findTextureSlot_least_index_witness :
    sampleScene.m_loadedTextures ≤ (sampleScene.m_textureIDs.length : Int) ∧
      sampleScene.FindTextureSlot "wood" = .ok 1 ∧
      sampleScene.FindTextureSlot "Wood" = .ok (-1) :=
  ⟨by decide,
    (findTextureSlot_least_index sampleScene "wood" (by decide)).1 1 ⟨"wood", 2⟩
      (by decide) rfl rfl
      (by
        intro j e1 hj h
        have hj0 : j = 0 := by omega
        subst hj0
        have he : e1 = ⟨"floor", 1⟩ := by
          have h2 : some (⟨"floor", 1⟩ : TEXTURE_INFO) = some e1 := h
          exact (Option.some.inj h2).symm
        subst he
        decide),
    rfl⟩

theorem glUintToInt_of_lt (u : Nat) (h : u < 2 ^ 31) : glUintToInt u = (u : Int) := by
  unfold glUintToInt
  have h1 : u % 2 ^ 32 = u := Nat.mod_eq_of_lt (by omega)
  rw [h1, if_pos h]

theorem glUintToInt_eq_neg_one (u : Nat) (h : glUintToInt u = -1) :
    u % 2 ^ 32 = 2 ^ 32 - 1 := by
  unfold glUintToInt at h
  have hlt : u % 2 ^ 32 < 2 ^ 32 := Nat.mod_lt _ (by norm_num)
  split at h <;> omega

/-- C2, as the code has it: on every texture registry, `FindTextureID` returns `-1` whenever
`FindTextureSlot` returns `-1`; when `FindTextureSlot` returns a slot `k`, `FindTextureID`
returns the handle stored at index `k` converted from `GLuint` to `int`, which is the
handle itself when it is below `2^31`, and which is `-1` only for the handle `2^32 - 1`. -/
theorem findTextureID_agrees_with_slot {α : Type} (s : SceneManager α) (tag : String)
    (hwf : s.m_loadedTextures ≤ (s.m_textureIDs.length : Int)) :
    (s.FindTextureSlot tag = .ok (-1) → s.FindTextureID tag = .ok (-1)) ∧
      (∀ r : Int, s.FindTextureSlot tag = .ok r → r ≠ -1 →
        ∃ (k : Nat) (e : TEXTURE_INFO), r = (k : Int) ∧ s.m_textureIDs[k]? = some e ∧
          s.FindTextureID tag = .ok (glUintToInt e.ID) ∧
          (e.ID < 2 ^ 31 → s.FindTextureID tag = .ok (e.ID : Int)) ∧
          (s.FindTextureID tag = .ok (-1) → e.ID % 2 ^ 32 = 2 ^ 32 - 1)) := by
  have hs := findTextureSlot_cases s tag hwf
  have hi := findTextureID_cases s tag hwf
  constructor
  · intro h
    rcases hi with ⟨h1, _⟩ | ⟨k, e, _, h3, h4, h5, _⟩
    · exact h1
    · rcases hs with ⟨_, g2⟩ | ⟨k1, e1, g1, _, _, _, _⟩
      · exact absurd h5 (g2 k e h3 h4)
      · rw [g1] at h
        injection h with h
        omega
  · intro r hr hne
    rcases hs with ⟨g1, _⟩ | ⟨k1, e1, g1, g3, g4, g5, g6⟩
    · rw [g1] at hr
      injection hr with hr
      exact absurd hr.symm hne
    · rw [g1] at hr
      injection hr with hr
      rcases hi with ⟨_, h2⟩ | ⟨k, e, h1, _, h4, h5, h6⟩
      · exact absurd g5 (h2 k1 e1 g3 g4)
      · obtain ⟨_, hee⟩ := firstMatch_unique g4 g5 g6 h4 h5 h6
        subst hee
        refine ⟨k1, e1, hr.symm, g4, h1, ?_, ?_⟩
        · intro hlt
          rw [h1, glUintToInt_of_lt _ hlt]
        · intro hm
          rw [h1] at hm
          injection hm with hm
          exact glUintToInt_eq_neg_one _ hm

/-- C2 at the sample registry: the tag `wood` is found at slot 1 and the handle stored
there, 2, is what `FindTextureID` returns. -/
theorem findTextureID_agrees_with_slot_witness :
    sampleScene.m_loadedTextures ≤ (sampleScene.m_textureIDs.length : Int) ∧
      ∃ (k : Nat) (e : TEXTURE_INFO), (1 : Int) = (k : Int) ∧
        sampleScene.m_textureIDs[k]? = some e ∧
        sampleScene.FindTextureID "wood" = .ok (glUintToInt e.ID) ∧
        (e.ID < 2 ^ 31 → sampleScene.FindTextureID "wood" = .ok (e.ID : Int)) ∧
        (sampleScene.FindTextureID "wood" = .ok (-1) → e.ID % 2 ^ 32 = 2 ^ 32 - 1) :=
  ⟨by decide,
    (findTextureID_agrees_with_slot sampleScene "wood" (by decide)).2 1 rfl (by decide)⟩

/-- C2 as stated fails: with the handle `4294967295` registered under `t`,
`FindTextureSlot` returns slot 0 while `FindTextureID` returns `-1`, which is neither the
stored handle nor a sign that the tag is absent. -/
theorem findTextureID_sentinel_collision :
    maxHandleScene.m_textureIDs[0]? = some ⟨"t", 4294967295⟩ ∧
      maxHandleScene.FindTextureSlot "t" = .ok 0 ∧
      maxHandleScene.FindTextureID "t" = .ok (-1) ∧
      ¬ (maxHandleScene.FindTextureID "t" = .ok (-1) →
          maxHandleScene.FindTextureSlot "t" = .ok (-1)) := by
  refine ⟨rfl, rfl, rfl, ?_⟩
  intro h
  have h1 : maxHandleScene.FindTextureSlot "t" = .ok (-1) := h rfl
  have h2 : maxHandleScene.FindTextureSlot "t" = .ok 0 := rfl
  rw [h2] at h1
  injection h1 with h1
  omega

/-! ## Texture registry: loading -/

/-- C3, as the code has it: on every registry with a free array element
(`0 ≤ count < length`), for every tag and every image decoded with 3 or 4 channels,
`CreateGLTexture` returns `true`; afterwards `FindTextureSlot(tag)` returns a slot, not
`-1`, whose entry carries the tag, and `FindTextureID(tag)` returns that entry's handle
converted to `int`, which is not `-1` unless the handle is `2^32 - 1`. -/
theorem createGLTexture_then_found {α : Type} (s : SceneManager α) (img : StbImage)
    (genTexture : Nat) (tag : String)
    (hch : img.colorChannels = 3 ∨ img.colorChannels = 4)
    (h0 : 0 ≤ s.m_loadedTextures)
    (hfree : s.m_loadedTextures < (s.m_textureIDs.length : Int)) :
    ∃ s1, s.CreateGLTexture (some img) genTexture tag = .ok (true, s1) ∧
      s1.FindTextureSlot tag ≠ .ok (-1) ∧
      ∃ (k : Nat) (e : TEXTURE_INFO), s1.FindTextureSlot tag = .ok (k : Int) ∧
        s1.m_textureIDs[k]? = some e ∧ e.tag = tag ∧
        s1.FindTextureID tag = .ok (glUintToInt e.ID) ∧
        (e.ID % 2 ^ 32 ≠ 2 ^ 32 - 1 → s1.FindTextureID tag ≠ .ok (-1)) := by
  refine ⟨_, createGLTexture_registers s img genTexture tag hch h0 hfree, ?_⟩
  obtain ⟨hwf1, hk1, hget1, _⟩ := registered_found s genTexture tag h0 hfree _ rfl
  rcases findTextureSlot_cases _ tag hwf1 with ⟨_, g2⟩ | ⟨k, e, g1, g3, g4, g5, g6⟩
  · exact absurd rfl (g2 _ _ hk1 hget1)
  · have hne : ((k : Int) : Int) ≠ -1 := by omega
    refine ⟨?_, k, e, g1, g4, g5, ?_, ?_⟩
    · rw [g1]
      intro h
      injection h with h
      omega
    · rcases findTextureID_cases _ tag hwf1 with ⟨_, h2⟩ | ⟨k2, e2, h1, _, h4, h5, h6⟩
      · exact absurd rfl (h2 _ _ hk1 hget1)
      · obtain ⟨_, hee⟩ := firstMatch_unique g4 g5 g6 h4 h5 h6
        rw [h1, hee]
    · intro hid hm
      rcases findTextureID_cases _ tag hwf1 with ⟨_, h2⟩ | ⟨k2, e2, h1, _, h4, h5, h6⟩
      · exact absurd rfl (h2 _ _ hk1 hget1)
      · obtain ⟨_, hee⟩ := firstMatch_unique g4 g5 g6 h4 h5 h6
        rw [h1, ← hee] at hm
        injection hm with hm
        exact hid (glUintToInt_eq_neg_one _ hm)

/-- C3 on the empty registry: a four-channel image loaded under `t` with the generated
name 7 is registered, and both lookups find it. -/
theorem createGLTexture_then_found_witness :
    ((⟨64, 64, 4⟩ : StbImage).colorChannels = 3 ∨ (⟨64, 64, 4⟩ : StbImage).colorChannels = 4) ∧
      (0 : Int) ≤ (emptyScene ℚ).m_loadedTextures ∧
      (emptyScene ℚ).m_loadedTextures < ((emptyScene ℚ).m_textureIDs.length : Int) ∧
      ∃ s1, (emptyScene ℚ).CreateGLTexture (some ⟨64, 64, 4⟩) 7 "t" = .ok (true, s1) ∧
        s1.FindTextureSlot "t" ≠ .ok (-1) ∧
        ∃ (k : Nat) (e : TEXTURE_INFO), s1.FindTextureSlot "t" = .ok (k : Int) ∧
          s1.m_textureIDs[k]? = some e ∧ e.tag = "t" ∧
          s1.FindTextureID "t" = .ok (glUintToInt e.ID) ∧
          (e.ID % 2 ^ 32 ≠ 2 ^ 32 - 1 → s1.FindTextureID "t" ≠ .ok (-1)) :=
  ⟨by decide, by decide, by decide,
    createGLTexture_then_found (emptyScene ℚ) ⟨64, 64, 4⟩ 7 "t" (by decide) (by decide)
      (by decide)⟩

/-- C3 as stated fails twice.  When `glGenTextures` hands out the name `4294967295`, the
load returns `true` and a following `FindTextureID` returns the sentinel `-1`.  On a
registry that already holds 16 textures the load indexes `m_textureIDs[16]`, outside the
array, so it has no defined result. -/
theorem createGLTexture_not_always_found :
    (∃ s1, (emptyScene ℚ).CreateGLTexture (some ⟨64, 64, 4⟩) 4294967295 "t" = .ok (true, s1) ∧
        s1.FindTextureID "t" = .ok (-1)) ∧
      (∃ s16, loadAll (emptyScene ℚ) sixteenLoads = .ok s16 ∧ s16.m_loadedTextures = 16 ∧
        s16.CreateGLTexture (some ⟨64, 64, 4⟩) 7 "t" = .error (.outOfBoundsWrite 16)) :=
  ⟨⟨_, rfl, rfl⟩, ⟨_, rfl, rfl, rfl⟩⟩

/-- C4: a `CreateGLTexture` call whose image cannot be decoded, or decodes with a channel
count other than 3 and 4, returns `false` and leaves the state as it was: the same count,
the same stored entries, and the same `FindTextureID` and `FindTextureSlot` results for
every tag.  No call that returns `false` changes the state. -/
theorem createGLTexture_failure_unchanged {α : Type} (s : SceneManager α)
    (image : Option StbImage) (genTexture : Nat) (tag : String)
    (hfail : image = none ∨
      ∃ img, image = some img ∧ img.colorChannels ≠ 3 ∧ img.colorChannels ≠ 4) :
    (∃ s1, s.CreateGLTexture image genTexture tag = .ok (false, s1) ∧
        s1.m_loadedTextures = s.m_loadedTextures ∧ s1.m_textureIDs = s.m_textureIDs ∧
        ∀ t : String, s1.FindTextureID t = s.FindTextureID t ∧
          s1.FindTextureSlot t = s.FindTextureSlot t) ∧
      (∀ s2, s.CreateGLTexture image genTexture tag = .ok (false, s2) → s2 = s) := by
  have hres : s.CreateGLTexture image genTexture tag = .ok (false, s) := by
    rcases hfail with h | ⟨img, h, h3, h4⟩
    · subst h; rfl
    · subst h; simp [SceneManager.CreateGLTexture, h3, h4]
  refine ⟨⟨s, hres, rfl, rfl, fun t => ⟨rfl, rfl⟩⟩, ?_⟩
  intro s2 h2
  rw [hres] at h2
  injection h2 with h2
  injection h2 with _ h2
  exact h2.symm

/-- C4 at the sample registry: a one-channel (greyscale) image is rejected and the registry
is the same afterwards. -/
theorem createGLTexture_failure_unchanged_witness :
    ((some ⟨64, 64, 1⟩ : Option StbImage) = none ∨
        ∃ img, (some ⟨64, 64, 1⟩ : Option StbImage) = some img ∧
          img.colorChannels ≠ 3 ∧ img.colorChannels ≠ 4) ∧
      (∀ s2, sampleScene.CreateGLTexture (some ⟨64, 64, 1⟩) 9 "grey" = .ok (false, s2) →
        s2 = sampleScene) ∧
      sampleScene.CreateGLTexture (some ⟨64, 64, 1⟩) 9 "grey" = .ok (false, sampleScene) :=
  have h : (some ⟨64, 64, 1⟩ : Option StbImage) = none ∨
      ∃ img, (some ⟨64, 64, 1⟩ : Option StbImage) = some img ∧
        img.colorChannels ≠ 3 ∧ img.colorChannels ≠ 4 :=
    Or.inr ⟨⟨64, 64, 1⟩, rfl, by decide, by decide⟩
  ⟨h, (createGLTexture_failure_unchanged sampleScene (some ⟨64, 64, 1⟩) 9 "grey" h).2, rfl⟩

/-- C5: after a `CreateGLTexture(file, tag)` call that returns `true`, made with a tag that
no registered entry carries, `FindTextureSlot(tag)` returns the count of entries registered
before the call, and it still does when `BindGLTextures` runs in between. -/
theorem createGLTexture_slot_is_previous_count {α : Type} (s s1 : SceneManager α)
    (image : Option StbImage) (genTexture : Nat) (tag : String)
    (hok : s.CreateGLTexture image genTexture tag = .ok (true, s1))
    (hnew : ∀ (j : Nat) (e : TEXTURE_INFO), (j : Int) < s.m_loadedTextures →
      s.m_textureIDs[j]? = some e → e.tag ≠ tag) :
    s1.FindTextureSlot tag = .ok s.m_loadedTextures ∧
      loadBindFind s image genTexture tag = .ok s.m_loadedTextures := by
  obtain ⟨h0, hfree, hs1⟩ := createGLTexture_true_inv s s1 image genTexture tag hok
  obtain ⟨hwf1, hk1, hget1, hother⟩ := registered_found s genTexture tag h0 hfree s1 hs1
  have hslot : s1.FindTextureSlot tag = .ok s.m_loadedTextures := by
    have h := findTextureSlot_of_first s1 tag hwf1 s.m_loadedTextures.toNat _ hk1 hget1 rfl
      (by
        intro j e1 hj hje
        rw [hother j (by omega)] at hje
        exact hnew j e1 (by omega) hje)
    rw [h, Int.toNat_of_nonneg h0]
  refine ⟨hslot, ?_⟩
  obtain ⟨calls, hcalls⟩ := bindGLTextures_ok s1 hwf1
  simp [loadBindFind, hok, hcalls, hslot]

/-- C5 for the first texture: a four-channel image loaded under `t` into the empty
registry, then `BindGLTextures`, then `FindTextureSlot("t")` gives slot 0. -/
theorem createGLTexture_slot_is_previous_count_witness :
    loadBindFind (emptyScene ℚ) (some ⟨64, 64, 4⟩) 7 "t" = .ok 0 :=
  (createGLTexture_slot_is_previous_count (emptyScene ℚ) _ (some ⟨64, 64, 4⟩) 7 "t" rfl
    (by
      intro j e hj
      have h0 : (emptyScene ℚ).m_loadedTextures = 0 := rfl
      omega)).2

/-- C6 on the code: sixteen successful loads fill the registry to a count of 16, and the
next load is not refused: it indexes `m_textureIDs[16]`, one past the array. -/
theorem seventeenth_load_writes_out_of_bounds :
    (∃ s16, loadAll (emptyScene ℚ) sixteenLoads = .ok s16 ∧ s16.m_loadedTextures = 16 ∧
        s16.m_textureIDs.length = MAX_TEXTURES) ∧
      loadAll (emptyScene ℚ) (sixteenLoads ++ [(some ⟨64, 64, 3⟩, 5, "a")]) =
        .error (.outOfBoundsWrite 16) :=
  ⟨⟨_, rfl, rfl, rfl⟩, rfl⟩

/-! ## Material catalog -/

/-- The scan of `FindMaterial` started at `index = i` with no match in `i .. k-1` and a
match at `k` stops at `k` with the five parameters of that material copied. -/
theorem findMaterialLoop_first {α : Type} (s : SceneManager α) (tag : String) (k : Nat)
    (m : OBJECT_MATERIAL α) (hk : s.m_objectMaterials[k]? = some m) (htag : m.tag = tag)
    (material : OBJECT_MATERIAL α) :
    ∀ (fuel i : Nat), k - i < fuel → i ≤ k →
      (∀ (j : Nat) (m1 : OBJECT_MATERIAL α), i ≤ j → j < k →
        s.m_objectMaterials[j]? = some m1 → m1.tag ≠ tag) →
      whileLoop s.findMaterialCond (s.findMaterialBody tag) fuel ⟨material, i, false⟩ =
        .ok ⟨{ material with
                ambientColor := m.ambientColor
                ambientStrength := m.ambientStrength
                diffuseColor := m.diffuseColor
                specularColor := m.specularColor
                shininess := m.shininess }, k, true⟩ := by
  have hklen : k < s.m_objectMaterials.length := by
    by_contra hge
    rw [List.getElem?_eq_none (by omega)] at hk
    cases hk
  intro fuel
  induction fuel with
  | zero => intro i h; omega
  | succ fuel ih =>
    intro i hfuel hik hmin
    have hilen : i < s.m_objectMaterials.length := by omega
    by_cases hi : i = k
    · subst hi
      simp only [whileLoop, SceneManager.findMaterialCond, SceneManager.findMaterialBody, hk,
        htag, hilen]
      simp [whileLoop_done, SceneManager.findMaterialCond]
    · have hget : s.m_objectMaterials[i]? = some (s.m_objectMaterials.get ⟨i, hilen⟩) :=
        List.getElem?_eq_getElem hilen
      have hne : (s.m_objectMaterials.get ⟨i, hilen⟩).tag ≠ tag :=
        hmin i _ (le_refl i) (by omega) hget
      have hrec := ih (i + 1) (by omega) (by omega)
        (fun j m1 hij hjk hj => hmin j m1 (by omega) hjk hj)
      simp only [whileLoop, SceneManager.findMaterialCond, SceneManager.findMaterialBody, hget,
        hne, hilen]
      simpa using hrec

/-- Some material carries the tag: then there is a least index carrying it. -/
theorem exists_first_material {α : Type} (catalog : List (OBJECT_MATERIAL α)) (tag : String)
    (h : ∃ m ∈ catalog, m.tag = tag) :
    ∃ (k : Nat) (m : OBJECT_MATERIAL α), catalog[k]? = some m ∧ m.tag = tag ∧
      ∀ (j : Nat) (m1 : OBJECT_MATERIAL α), j < k → catalog[j]? = some m1 → m1.tag ≠ tag := by
  classical
  have hex : ∃ k : Nat, ∃ m, catalog[k]? = some m ∧ m.tag = tag := by
    obtain ⟨m, hm, hmt⟩ := h
    obtain ⟨k, hk⟩ := List.getElem?_of_mem hm
    exact ⟨k, m, hk, hmt⟩
  obtain ⟨m, hm, hmt⟩ := Nat.find_spec hex
  refine ⟨Nat.find hex, m, hm, hmt, ?_⟩
  intro j m1 hj hj1 hj2
  exact Nat.find_min hex hj ⟨m1, hj1, hj2⟩

/-- C7 on the code: with a non-empty catalog in which no material carries the tag,
`FindMaterial` leaves the caller's material as it was but returns `true`, not `false`;
only on the empty catalog does it return `false`. -/
theorem findMaterial_absent_tag_returns_true (material : OBJECT_MATERIAL ℚ) :
    catalogScene.FindMaterial "wood" material = .ok (true, material) ∧
      (emptyScene ℚ).FindMaterial "wood" material = .ok (false, material) :=
  ⟨rfl, rfl⟩

/-- C8: when some material of the catalog carries the tag, `FindMaterial` returns `true`
and the caller's material receives the ambient colour, ambient strength, diffuse colour,
specular colour and shininess of the material at the least index carrying the tag. -/
theorem findMaterial_first_match {α : Type} (s : SceneManager α) (tag : String)
    (material : OBJECT_MATERIAL α) (h : ∃ m ∈ s.m_objectMaterials, m.tag = tag) :
    ∃ (k : Nat) (m out : OBJECT_MATERIAL α),
      s.m_objectMaterials[k]? = some m ∧ m.tag = tag ∧
      (∀ (j : Nat) (m1 : OBJECT_MATERIAL α), j < k →
        s.m_objectMaterials[j]? = some m1 → m1.tag ≠ tag) ∧
      s.FindMaterial tag material = .ok (true, out) ∧
      out.ambientColor = m.ambientColor ∧ out.ambientStrength = m.ambientStrength ∧
      out.diffuseColor = m.diffuseColor ∧ out.specularColor = m.specularColor ∧
      out.shininess = m.shininess := by
  obtain ⟨k, m, hk, htag, hmin⟩ := exists_first_material s.m_objectMaterials tag h
  have hklen : k < s.m_objectMaterials.length := by
    by_contra hge
    rw [List.getElem?_eq_none (by omega)] at hk
    cases hk
  have hloop := findMaterialLoop_first s tag k m hk htag material
    (s.m_objectMaterials.length + 1) 0 (by omega) (Nat.zero_le k)
    (fun j m1 _ hjk hj => hmin j m1 hjk hj)
  have hne : s.m_objectMaterials.length ≠ 0 := by omega
  refine ⟨k, m,
    { material with
      ambientColor := m.ambientColor
      ambientStrength := m.ambientStrength
      diffuseColor := m.diffuseColor
      specularColor := m.specularColor
      shininess := m.shininess }, hk, htag, hmin, ?_, rfl, rfl, rfl, rfl, rfl⟩
  simp [SceneManager.FindMaterial, hne, hloop]

/-- C8 at the sample catalog `glass, metal, metal`: the lookup of `metal` returns `true`
with the parameters of the material at index 1, the first of the two. -/
theorem findMaterial_first_match_witness :
    (∃ m ∈ catalogScene.m_objectMaterials, m.tag = "metal") ∧
      (∃ (k : Nat) (m out : OBJECT_MATERIAL ℚ),
        catalogScene.m_objectMaterials[k]? = some m ∧ m.tag = "metal" ∧
        (∀ (j : Nat) (m1 : OBJECT_MATERIAL ℚ), j < k →
          catalogScene.m_objectMaterials[j]? = some m1 → m1.tag ≠ "metal") ∧
        catalogScene.FindMaterial "metal" glassMaterial = .ok (true, out) ∧
        out.ambientColor = m.ambientColor ∧ out.ambientStrength = m.ambientStrength ∧
        out.diffuseColor = m.diffuseColor ∧ out.specularColor = m.specularColor ∧
        out.shininess = m.shininess) ∧
      catalogScene.FindMaterial "metal" glassMaterial =
        .ok (true, { metalMaterial with tag := "glass" }) :=
  have h : ∃ m ∈ catalogScene.m_objectMaterials, m.tag = "metal" :=
    ⟨metalMaterial, by simp [catalogScene], rfl⟩
  ⟨h, findMaterial_first_match catalogScene "metal" glassMaterial h, rfl⟩

/-- C9 on the code: with the non-empty catalog `glass, metal, metal` and the tag `wood`,
which no material carries, `SetShaderMaterial` uploads all five material uniforms, with the
values of its uninitialised local material, so the shader state is not what it was. -/
theorem setShaderMaterial_absent_tag_uploads (uninit : OBJECT_MATERIAL ℚ) :
    catalogScene.SetShaderMaterial "wood" uninit =
        .ok { catalogScene with
          m_pShaderManager := some ⟨[
            ("material.ambientColor", .vec3 uninit.ambientColor),
            ("material.ambientStrength", .float uninit.ambientStrength),
            ("material.diffuseColor", .vec3 uninit.diffuseColor),
            ("material.specularColor", .vec3 uninit.specularColor),
            ("material.shininess", .float uninit.shininess)]⟩ } ∧
      catalogScene.SetShaderMaterial "wood" uninit ≠ .ok catalogScene ∧
      (emptyScene ℚ).SetShaderMaterial "wood" uninit = .ok (emptyScene ℚ) := by
  refine ⟨rfl, ?_, rfl⟩
  intro h
  have h1 : catalogScene.SetShaderMaterial "wood" uninit =
      .ok { catalogScene with
        m_pShaderManager := some ⟨[
          ("material.ambientColor", .vec3 uninit.ambientColor),
          ("material.ambientStrength", .float uninit.ambientStrength),
          ("material.diffuseColor", .vec3 uninit.diffuseColor),
          ("material.specularColor", .vec3 uninit.specularColor),
          ("material.shininess", .float uninit.shininess)]⟩ } := rfl
  rw [h1] at h
  injection h with h
  have h2 := congrArg (fun t => (t.m_pShaderManager.map (fun sh => sh.uniforms.length))) h
  simp [catalogScene, emptyScene] at h2

/-! ## Model transform -/

/-- C10: over the real numbers, with the real `cos`, `sin`, inverse square root and the
degree-to-radian factor π/180, the matrix `SetTransformations` uploads as `model` is
`translate(t) * rotateX(rx) * rotateY(ry) * rotateZ(rz) * scale(s)`; it maps every point
`p` to `t + Rx(Ry(Rz(s∘p)))`; and with scale (2,1,1), zero rotation and translation (1,0,0)
it maps the origin to (1,0,0) and the point (1,0,0) to (3,0,0). -/
theorem setTransformations_model_matrix (sh : ShaderManager ℝ) (s : SceneManager ℝ)
    (scaleXYZ positionXYZ p : Vec3 ℝ) (rx ry rz : ℝ) :
    let ops : FloatOps ℝ := ⟨Real.cos, Real.sin, fun x => (Real.sqrt x)⁻¹, Real.pi / 180⟩
    let M := SceneManager.modelView ops scaleXYZ rx ry rz positionXYZ
    (SceneManager.SetTransformations { s with m_pShaderManager := some sh } ops scaleXYZ
        rx ry rz positionXYZ).m_pShaderManager = some (sh.setMat4Value "model" M) ∧
      M = ((((Mat4.translate positionXYZ).mul
              (Mat4.rotate ops (radians ops rx) ⟨1, 0, 0⟩)).mul
              (Mat4.rotate ops (radians ops ry) ⟨0, 1, 0⟩)).mul
              (Mat4.rotate ops (radians ops rz) ⟨0, 0, 1⟩)).mul (Mat4.scale scaleXYZ) ∧
      M.mulVec p.toPoint = (specTransform ops scaleXYZ rx ry rz positionXYZ p).toPoint ∧
      (SceneManager.modelView ops ⟨2, 1, 1⟩ 0 0 0 ⟨1, 0, 0⟩).mulVec ⟨0, 0, 0, 1⟩ =
        ⟨1, 0, 0, 1⟩ ∧
      (SceneManager.modelView ops ⟨2, 1, 1⟩ 0 0 0 ⟨1, 0, 0⟩).mulVec ⟨1, 0, 0, 1⟩ =
        ⟨3, 0, 0, 1⟩ := by
  intro ops M
  refine ⟨rfl, rfl, ?_, ?_, ?_⟩
  · simp only [M, ops, SceneManager.modelView, Mat4.mul, Mat4.mulVec, Mat4.translate,
      Mat4.translateM, Mat4.rotate, Mat4.rotateM, Mat4.scale, Mat4.scaleM, Mat4.identity,
      Vec3.normalize, Vec3.dot, Vec3.scale, Vec4.add, Vec4.scale, Vec3.toPoint, specTransform,
      specRotateX, specRotateY, specRotateZ, radians, Vec4.mk.injEq]
    simp only [mul_zero, mul_one, add_zero, zero_add, zero_mul, one_mul, sub_zero,
      Real.sqrt_one, inv_one, and_true]
    refine ⟨?_, ?_, ?_⟩ <;> ring
  · simp [ops, SceneManager.modelView, Mat4.mul, Mat4.mulVec, Mat4.translate,
      Mat4.translateM, Mat4.rotate, Mat4.rotateM, Mat4.scale, Mat4.scaleM, Mat4.identity,
      Vec3.normalize, Vec3.dot, Vec3.scale, Vec4.add, Vec4.scale, radians]
  · simp [ops, SceneManager.modelView, Mat4.mul, Mat4.mulVec, Mat4.translate,
      Mat4.translateM, Mat4.rotate, Mat4.rotateM, Mat4.scale, Mat4.scaleM, Mat4.identity,
      Vec3.normalize, Vec3.dot, Vec3.scale, Vec4.add, Vec4.scale, radians]
    norm_num

/-! ## Colour and texture selection -/

theorem value_last {α : Type} (l : List (String × UniformValue α)) (n : String)
    (v : UniformValue α) : (ShaderManager.mk (l ++ [(n, v)])).value n = some v := by
  simp [ShaderManager.value]

theorem value_before_last {α : Type} (l : List (String × UniformValue α)) (n m : String)
    (v w : UniformValue α) (hne : m ≠ n) :
    (ShaderManager.mk (l ++ [(n, v)] ++ [(m, w)])).value n = some v := by
  simp [ShaderManager.value, hne]

/-- With a shader manager, `SetShaderColor` appends the two uploads `bUseTexture = 0` and
`objectColor`, and leaves the other members alone. -/
theorem setShaderColor_eq {α : Type} (s : SceneManager α) (sh : ShaderManager α)
    (hsh : s.m_pShaderManager = some sh) (r g b a : α) :
    s.SetShaderColor r g b a =
      { s with
        m_pShaderManager :=
          some ⟨sh.uniforms ++ [("bUseTexture", .int 0)] ++
            [("objectColor", .vec4 ⟨r, g, b, a⟩)]⟩ } := by
  simp [SceneManager.SetShaderColor, hsh, ShaderManager.setIntValue,
    ShaderManager.setVec4Value, g_UseTextureName, g_ColorValueName]

/-- With a shader manager and a registry whose count does not exceed the array length,
`SetShaderTexture` appends the two uploads `bUseTexture = 1` and `objectTexture`, the latter
with the result of `FindTextureSlot`, and leaves the other members alone. -/
theorem setShaderTexture_eq {α : Type} (s : SceneManager α) (sh : ShaderManager α)
    (hsh : s.m_pShaderManager = some sh)
    (hwf : s.m_loadedTextures ≤ (s.m_textureIDs.length : Int)) (tag : String) :
    ∃ slot : Int, s.FindTextureSlot tag = .ok slot ∧
      s.SetShaderTexture tag =
        .ok { s with
          m_pShaderManager :=
            some ⟨sh.uniforms ++ [("bUseTexture", .int 1)] ++
              [("objectTexture", .sampler2D slot)]⟩ } := by
  have hslot : ∃ slot : Int, s.FindTextureSlot tag = .ok slot := by
    rcases findTextureSlot_cases s tag hwf with ⟨h, _⟩ | ⟨k, _, h, _⟩
    · exact ⟨_, h⟩
    · exact ⟨_, h⟩
  obtain ⟨slot, hslot⟩ := hslot
  refine ⟨slot, hslot, ?_⟩
  simp [SceneManager.SetShaderTexture, hsh, hslot, ShaderManager.setIntValue,
    ShaderManager.setSampler2DValue, g_UseTextureName, g_TextureValueName]

/-- A run of colour and texture selections on a state with a shader manager finishes
without a fault and keeps the shader manager and the registry. -/
theorem applySurfaceCalls_ok {α : Type} (calls : List (SurfaceCall α)) :
    ∀ (s : SceneManager α), (∃ sh, s.m_pShaderManager = some sh) →
      s.m_loadedTextures ≤ (s.m_textureIDs.length : Int) →
      ∃ s1, applySurfaceCalls s calls = .ok s1 ∧ (∃ sh1, s1.m_pShaderManager = some sh1) ∧
        s1.m_loadedTextures ≤ (s1.m_textureIDs.length : Int) := by
  induction calls with
  | nil => intro s hsh hwf; exact ⟨s, rfl, hsh, hwf⟩
  | cons c rest ih =>
    intro s hsh hwf
    obtain ⟨sh, hsh⟩ := hsh
    cases c with
    | color r g b a =>
      have h := setShaderColor_eq s sh hsh r g b a
      obtain ⟨s1, h1, h2, h3⟩ := ih (s.SetShaderColor r g b a)
        (by rw [h]; exact ⟨_, rfl⟩) (by rw [h]; exact hwf)
      exact ⟨s1, by simpa [applySurfaceCalls] using h1, h2, h3⟩
    | texture tag =>
      obtain ⟨slot, _, h⟩ := setShaderTexture_eq s sh hsh hwf tag
      obtain ⟨s1, h1, h2, h3⟩ := ih
        { s with
          m_pShaderManager :=
            some ⟨sh.uniforms ++ [("bUseTexture", .int 1)] ++
              [("objectTexture", .sampler2D slot)]⟩ } ⟨_, rfl⟩ hwf
      exact ⟨s1, by simpa [applySurfaceCalls, h] using h1, h2, h3⟩

theorem applySurfaceCalls_append {α : Type} (calls : List (SurfaceCall α))
    (c : SurfaceCall α) :
    ∀ (s s1 : SceneManager α), applySurfaceCalls s calls = .ok s1 →
      applySurfaceCalls s (calls ++ [c]) = applySurfaceCalls s1 [c] := by
  induction calls with
  | nil =>
    intro s s1 h
    simp only [applySurfaceCalls] at h
    injection h with h
    subst h
    rfl
  | cons d rest ih =>
    intro s s1 h
    cases d with
    | color r g b a =>
      simp only [List.cons_append, applySurfaceCalls] at h ⊢
      exact ih _ _ h
    | texture tag =>
      simp only [List.cons_append, applySurfaceCalls] at h ⊢
      cases hst : s.SetShaderTexture tag with
      | error f => rw [hst] at h; cases h
      | ok s2 =>
        rw [hst] at h
        simp only at h ⊢
        exact ih _ _ h

/-- C11: on a state with a shader manager and a registry whose count does not exceed the
array length, `SetShaderColor(r,g,b,a)` leaves `bUseTexture` at 0 (false) and `objectColor`
at `(r,g,b,a)`; `SetShaderTexture(tag)` leaves `bUseTexture` at 1 (true); and after any
sequence of these calls `bUseTexture` holds the value set by the last call. -/
theorem surface_selection_last_call_wins {α : Type} (s : SceneManager α)
    (sh : ShaderManager α) (hsh : s.m_pShaderManager = some sh)
    (hwf : s.m_loadedTextures ≤ (s.m_textureIDs.length : Int)) :
    (∀ r g b a : α, ∃ sh1, (s.SetShaderColor r g b a).m_pShaderManager = some sh1 ∧
        sh1.value "bUseTexture" = some (.int 0) ∧
        sh1.value "objectColor" = some (.vec4 ⟨r, g, b, a⟩)) ∧
      (∀ tag : String, ∃ s1 sh1, s.SetShaderTexture tag = .ok s1 ∧
        s1.m_pShaderManager = some sh1 ∧ sh1.value "bUseTexture" = some (.int 1)) ∧
      (∀ (calls : List (SurfaceCall α)) (c : SurfaceCall α), ∃ s1 sh1,
        applySurfaceCalls s (calls ++ [c]) = .ok s1 ∧ s1.m_pShaderManager = some sh1 ∧
        sh1.value "bUseTexture" = some (.int c.flag)) := by
  have hcolor : ∀ (t : SceneManager α) (sht : ShaderManager α),
      t.m_pShaderManager = some sht → ∀ r g b a : α,
      ∃ sh1, (t.SetShaderColor r g b a).m_pShaderManager = some sh1 ∧
        sh1.value "bUseTexture" = some (.int 0) ∧
        sh1.value "objectColor" = some (.vec4 ⟨r, g, b, a⟩) := by
    intro t sht ht r g b a
    rw [setShaderColor_eq t sht ht]
    exact ⟨_, rfl, value_before_last _ _ _ _ _ (by decide), value_last _ _ _⟩
  have htex : ∀ (t : SceneManager α) (sht : ShaderManager α),
      t.m_pShaderManager = some sht →
      t.m_loadedTextures ≤ (t.m_textureIDs.length : Int) → ∀ tag : String,
      ∃ s1 sh1, t.SetShaderTexture tag = .ok s1 ∧
        s1.m_pShaderManager = some sh1 ∧ sh1.value "bUseTexture" = some (.int 1) := by
    intro t sht ht hwft tag
    obtain ⟨slot, _, h⟩ := setShaderTexture_eq t sht ht hwft tag
    exact ⟨_, _, h, rfl, value_before_last _ _ _ _ _ (by decide)⟩
  refine ⟨hcolor s sh hsh, htex s sh hsh hwf, ?_⟩
  intro calls c
  obtain ⟨s1, h1, ⟨sh1, hsh1⟩, hwf1⟩ := applySurfaceCalls_ok calls s ⟨sh, hsh⟩ hwf
  rw [applySurfaceCalls_append calls c s s1 h1]
  cases c with
  | color r g b a =>
    obtain ⟨sh2, h2, h3, _⟩ := hcolor s1 sh1 hsh1 r g b a
    exact ⟨_, sh2, rfl, h2, h3⟩
  | texture tag =>
    obtain ⟨s2, sh2, h2, h3, h4⟩ := htex s1 sh1 hsh1 hwf1 tag
    refine ⟨s2, sh2, ?_, h3, h4⟩
    simp [applySurfaceCalls, h2]

/-- C11 at the sample registry: colour, texture, colour leaves `bUseTexture` at 0, and
texture after colour leaves it at 1. -/
theorem surface_selection_last_call_wins_witness :
    sampleScene.m_pShaderManager = some ⟨[]⟩ ∧
      sampleScene.m_loadedTextures ≤ (sampleScene.m_textureIDs.length : Int) ∧
      (∃ s1 sh1, applySurfaceCalls sampleScene
          ([.color 1 0 0 1, .texture "wood"] ++ [.color 0 1 0 1]) = .ok s1 ∧
        s1.m_pShaderManager = some sh1 ∧
        sh1.value "bUseTexture" = some (.int (SurfaceCall.color (0 : ℚ) 1 0 1).flag)) ∧
      (∃ s1 sh1, applySurfaceCalls sampleScene
          ([.color 1 0 0 1] ++ [.texture "wood"]) = .ok s1 ∧
        s1.m_pShaderManager = some sh1 ∧
        sh1.value "bUseTexture" = some (.int (SurfaceCall.texture (α := ℚ) "wood").flag)) :=
  ⟨rfl, by decide,
    (surface_selection_last_call_wins sampleScene ⟨[]⟩ rfl (by decide)).2.2
      [.color 1 0 0 1, .texture "wood"] (.color 0 1 0 1),
    (surface_selection_last_call_wins sampleScene ⟨[]⟩ rfl (by decide)).2.2
      [.color 1 0 0 1] (.texture "wood")⟩

/-- C12: on a state with a shader manager and a registry whose count does not exceed the
array length, `SetShaderTexture(tag)` appends exactly two uploads, `bUseTexture = 1` and
`objectTexture` with the value of `FindTextureSlot(tag)`: the least index whose entry
carries the tag, or `-1` when no registered entry carries it. -/
theorem setShaderTexture_uploads_slot {α : Type} (s : SceneManager α) (sh : ShaderManager α)
    (hsh : s.m_pShaderManager = some sh)
    (hwf : s.m_loadedTextures ≤ (s.m_textureIDs.length : Int)) (tag : String) :
    ∃ slot : Int, s.FindTextureSlot tag = .ok slot ∧
      s.SetShaderTexture tag =
        .ok { s with
          m_pShaderManager :=
            some ⟨sh.uniforms ++ [("bUseTexture", .int 1)] ++
              [("objectTexture", .sampler2D slot)]⟩ } ∧
      (∀ (k : Nat) (e : TEXTURE_INFO), (k : Int) < s.m_loadedTextures →
        s.m_textureIDs[k]? = some e → e.tag = tag →
        (∀ (j : Nat) (e1 : TEXTURE_INFO), j < k →
          s.m_textureIDs[j]? = some e1 → e1.tag ≠ tag) → slot = (k : Int)) ∧
      ((∀ (j : Nat) (e : TEXTURE_INFO), (j : Int) < s.m_loadedTextures →
          s.m_textureIDs[j]? = some e → e.tag ≠ tag) → slot = -1) := by
  obtain ⟨slot, hslot, h⟩ := setShaderTexture_eq s sh hsh hwf tag
  refine ⟨slot, hslot, h, ?_, ?_⟩
  · intro k e hk hke htag hmin
    have h1 := findTextureSlot_of_first s tag hwf k e hk hke htag hmin
    rw [hslot] at h1
    injection h1
  · intro hno
    have h1 := findTextureSlot_of_none s tag hwf hno
    rw [hslot] at h1
    injection h1

/-- C12 at the sample registry: `wood` uploads slot 1, the unregistered `brick` uploads
`-1`. -/
theorem setShaderTexture_uploads_slot_witness :
    sampleScene.m_pShaderManager = some ⟨[]⟩ ∧
      sampleScene.m_loadedTextures ≤ (sampleScene.m_textureIDs.length : Int) ∧
      (∃ slot : Int, sampleScene.FindTextureSlot "brick" = .ok slot ∧
        sampleScene.SetShaderTexture "brick" =
          .ok { sampleScene with
            m_pShaderManager :=
              some ⟨[] ++ [("bUseTexture", .int 1)] ++ [("objectTexture", .sampler2D slot)]⟩ }) ∧
      sampleScene.SetShaderTexture "wood" =
        .ok { sampleScene with
          m_pShaderManager :=
            some ⟨[("bUseTexture", .int 1), ("objectTexture", .sampler2D 1)]⟩ } ∧
      sampleScene.SetShaderTexture "brick" =
        .ok { sampleScene with
          m_pShaderManager :=
            some ⟨[("bUseTexture", .int 1), ("objectTexture", .sampler2D (-1))]⟩ } :=
  ⟨rfl, by decide,
    (let ⟨slot, h1, h2, _⟩ :=
      setShaderTexture_uploads_slot sampleScene ⟨[]⟩ rfl (by decide) "brick"
     ⟨slot, h1, h2⟩),
    rfl, rfl⟩

/-! ## View manager: scroll and projection presets -/

/-- C15: with a camera present, `scroll_callback` sets the movement speed to
`min(45, max(1, v + dy))` and changes nothing else: the speed is 1 when `v + dy < 1`, 45
when `v + dy > 45`, and `v + dy` in between.  The scalars range over any ordered field, in
particular the real numbers. -/
theorem scroll_callback_clamps_speed {α : Type} [LinearOrderedField α] (vm : ViewManager α)
    (cam : Camera α) (xoffset yoffset : α) (hcam : vm.g_pCamera = some cam) :
    vm.scroll_callback xoffset yoffset =
        .ok { vm with
          g_pCamera :=
            some { cam with
              MovementSpeed := min 45 (max 1 (cam.MovementSpeed + yoffset)) } } ∧
      (cam.MovementSpeed + yoffset < 1 →
        min 45 (max 1 (cam.MovementSpeed + yoffset)) = 1) ∧
      (45 < cam.MovementSpeed + yoffset →
        min 45 (max 1 (cam.MovementSpeed + yoffset)) = 45) ∧
      (1 ≤ cam.MovementSpeed + yoffset → cam.MovementSpeed + yoffset ≤ 45 →
        min 45 (max 1 (cam.MovementSpeed + yoffset)) = cam.MovementSpeed + yoffset) := by
  refine ⟨?_, ?_, ?_, ?_⟩
  · simp only [ViewManager.scroll_callback, hcam]
    by_cases h1 : cam.MovementSpeed + yoffset < 1
    · have e1 : max 1 (cam.MovementSpeed + yoffset) = 1 := max_eq_left h1.le
      have e2 : min (45 : α) 1 = 1 := min_eq_right (by norm_num)
      norm_num [h1, e1, e2]
    · by_cases h3 : cam.MovementSpeed + yoffset > 45
      · have e1 : max 1 (cam.MovementSpeed + yoffset) = cam.MovementSpeed + yoffset :=
          max_eq_right (by linarith)
        have e2 : min (45 : α) (cam.MovementSpeed + yoffset) = 45 := min_eq_left h3.le
        norm_num [h1, h3, e1, e2]
      · have e1 : max 1 (cam.MovementSpeed + yoffset) = cam.MovementSpeed + yoffset :=
          max_eq_right (by linarith)
        have e2 : min (45 : α) (cam.MovementSpeed + yoffset) = cam.MovementSpeed + yoffset :=
          min_eq_right (by linarith)
        norm_num [h1, h3, e1, e2]
  · intro h
    rw [max_eq_left h.le, min_eq_right (by norm_num)]
  · intro h
    rw [max_eq_right (by linarith), min_eq_left h.le]
  · intro h1 h2
    rw [max_eq_right h1, min_eq_right h2]

/-- C15 on the constructor's camera with speed 2: a scroll of -5 leaves speed 1, a scroll
of 100 leaves speed 45. -/
theorem scroll_callback_clamps_speed_witness :
    (ViewManager.new (α := ℚ) none ⟨⟨0, 0, 0⟩, ⟨0, 0, -1⟩, ⟨0, 1, 0⟩, -90, 0, 45, 2⟩).g_pCamera =
        some ⟨⟨0.0, 5.0, 12.0⟩, ⟨0.0, -0.5, -2.0⟩, ⟨0.0, 1.0, 0.0⟩, -90, 0, 80, 2⟩ ∧
      min (45 : ℚ) (max 1 (2 + -5)) = 1 ∧ min (45 : ℚ) (max 1 (2 + 100)) = 45 :=
  ⟨rfl,
    (scroll_callback_clamps_speed
      (ViewManager.new (α := ℚ) none ⟨⟨0, 0, 0⟩, ⟨0, 0, -1⟩, ⟨0, 1, 0⟩, -90, 0, 45, 2⟩)
      ⟨⟨0.0, 5.0, 12.0⟩, ⟨0.0, -0.5, -2.0⟩, ⟨0.0, 1.0, 0.0⟩, -90, 0, 80, 2⟩ 0 (-5) rfl).2.1
      (by norm_num),
    (scroll_callback_clamps_speed
      (ViewManager.new (α := ℚ) none ⟨⟨0, 0, 0⟩, ⟨0, 0, -1⟩, ⟨0, 1, 0⟩, -90, 0, 45, 2⟩)
      ⟨⟨0.0, 5.0, 12.0⟩, ⟨0.0, -0.5, -2.0⟩, ⟨0.0, 1.0, 0.0⟩, -90, 0, 80, 2⟩ 0 100 rfl).2.2.1
      (by norm_num)⟩

/-- With a camera present, `ProcessKeyboardEvents` is the escape test followed by the
movement and preset tests on that camera. -/
theorem processKeyboardEvents_eq {α : Type} [Field α] (vm : ViewManager α)
    (cam : Camera α) (cops : CameraOps α) (keys : KeyState)
    (hcam : vm.g_pCamera = some cam) :
    vm.ProcessKeyboardEvents cops keys =
      { vm with
        windowShouldClose := keys.escape || vm.windowShouldClose
        g_pCamera :=
          some (ViewManager.presetKeys keys
            (ViewManager.movementKeys cops keys vm.gDeltaTime cam,
              vm.bOrthographicProjection)).1
        bOrthographicProjection :=
          (ViewManager.presetKeys keys
            (ViewManager.movementKeys cops keys vm.gDeltaTime cam,
              vm.bOrthographicProjection)).2 } := by
  unfold ViewManager.ProcessKeyboardEvents
  cases keys.escape <;> simp [hcam]

/-- With only P pressed the preset tests give the perspective pose and mode. -/
theorem presetKeys_onlyP {α : Type} [Field α] (st : Camera α × Bool) :
    ViewManager.presetKeys KeyState.onlyP st =
      ({ st.1 with
          Position := ⟨0.0, 5.5, 8.0⟩
          Front := ⟨0.0, -0.5, -2.0⟩
          Up := ⟨0.0, 1.0, 0.0⟩
          Zoom := 80 }, false) := by
  simp [ViewManager.presetKeys, KeyState.onlyP, KeyState.released]

/-- A preset key O, 2 or 3 without P leaves orthographic mode on. -/
theorem presetKeys_orthographic {α : Type} [Field α] (keys : KeyState)
    (st : Camera α × Bool)
    (hk : keys.o = true ∨ keys.key2 = true ∨ keys.key3 = true) (hp : keys.p = false) :
    (ViewManager.presetKeys keys st).2 = true := by
  obtain ⟨esc, w, s, a, d, q, e, o, k2, k3, p⟩ := keys
  simp only at hk hp
  subst hp
  cases o <;> cases k2 <;> cases k3 <;> simp_all [ViewManager.presetKeys]

/-- With only one key pressed, none of the movement tests fires. -/
theorem movementKeys_none {α : Type} (cops : CameraOps α) (dt : α) (cam : Camera α)
    (k : KeyState)
    (hk : k = KeyState.onlyO ∨ k = KeyState.only2 ∨ k = KeyState.only3 ∨
      k = KeyState.onlyP) :
    ViewManager.movementKeys cops k dt cam = cam := by
  rcases hk with h | h | h | h <;> subst h <;>
    simp [ViewManager.movementKeys, KeyState.onlyO, KeyState.only2, KeyState.only3,
      KeyState.onlyP, KeyState.released]

/-- With only one preset key pressed, the preset tests are idempotent. -/
theorem presetKeys_idempotent {α : Type} [Field α] (st : Camera α × Bool) (k : KeyState)
    (hk : k = KeyState.onlyO ∨ k = KeyState.only2 ∨ k = KeyState.only3 ∨
      k = KeyState.onlyP) :
    ViewManager.presetKeys k (ViewManager.presetKeys k st) = ViewManager.presetKeys k st := by
  rcases hk with h | h | h | h <;> subst h <;>
    simp [ViewManager.presetKeys, KeyState.onlyO, KeyState.only2, KeyState.only3,
      KeyState.onlyP, KeyState.released]

/-- C16: with a camera present, whatever keys the first `ProcessKeyboardEvents` call sees
(an orthographic preset key O, 2 or 3 among them), a following call with only P pressed
leaves perspective mode and the pose position (0, 5.5, 8), front (0, -0.5, -2),
up (0, 1, 0), zoom 80; a call with O, 2 or 3 and without P leaves orthographic mode; and
for each of the four presets, a second call with only that key pressed changes nothing. -/
theorem preset_then_perspective_restores_pose {α : Type} [Field α] (vm : ViewManager α)
    (cam : Camera α) (cops : CameraOps α) (keys1 : KeyState)
    (hcam : vm.g_pCamera = some cam) :
    (∃ cam2,
        ((vm.ProcessKeyboardEvents cops keys1).ProcessKeyboardEvents cops
          KeyState.onlyP).g_pCamera = some cam2 ∧
        cam2.Position = ⟨0, 5.5, 8⟩ ∧ cam2.Front = ⟨0, -0.5, -2⟩ ∧ cam2.Up = ⟨0, 1, 0⟩ ∧
        cam2.Zoom = 80) ∧
      ((vm.ProcessKeyboardEvents cops keys1).ProcessKeyboardEvents cops
          KeyState.onlyP).bOrthographicProjection = false ∧
      ((keys1.o = true ∨ keys1.key2 = true ∨ keys1.key3 = true) → keys1.p = false →
        (vm.ProcessKeyboardEvents cops keys1).bOrthographicProjection = true) ∧
      (∀ k : KeyState,
        (k = KeyState.onlyO ∨ k = KeyState.only2 ∨ k = KeyState.only3 ∨ k = KeyState.onlyP) →
        (vm.ProcessKeyboardEvents cops k).ProcessKeyboardEvents cops k =
          vm.ProcessKeyboardEvents cops k) := by
  have h1 := processKeyboardEvents_eq vm cam cops keys1 hcam
  refine ⟨?_, ?_, ?_, ?_⟩
  · rw [h1, processKeyboardEvents_eq _ _ cops KeyState.onlyP rfl, presetKeys_onlyP]
    refine ⟨_, rfl, ?_, ?_, ?_, rfl⟩ <;> norm_num
  · rw [h1, processKeyboardEvents_eq _ _ cops KeyState.onlyP rfl, presetKeys_onlyP]
  · intro hk hp
    rw [h1]
    exact presetKeys_orthographic keys1 _ hk hp
  · intro k hk
    rw [processKeyboardEvents_eq vm cam cops k hcam,
      processKeyboardEvents_eq _ _ cops k rfl]
    simp only [movementKeys_none cops _ _ k hk, presetKeys_idempotent _ k hk]
    rcases hk with h | h | h | h <;> subst h <;>
      simp [KeyState.onlyO, KeyState.only2, KeyState.only3, KeyState.onlyP,
        KeyState.released]

/-- C16 on the constructor's state: O then P gives the perspective pose. -/
theorem preset_then_perspective_restores_pose_witness :
    (ViewManager.new (α := ℚ) none ⟨⟨0, 0, 0⟩, ⟨0, 0, -1⟩, ⟨0, 1, 0⟩, -90, 0, 45, 2⟩).g_pCamera =
        some ⟨⟨0.0, 5.0, 12.0⟩, ⟨0.0, -0.5, -2.0⟩, ⟨0.0, 1.0, 0.0⟩, -90, 0, 80, 2⟩ ∧
      ∃ cam2,
        (((ViewManager.new (α := ℚ) none
            ⟨⟨0, 0, 0⟩, ⟨0, 0, -1⟩, ⟨0, 1, 0⟩, -90, 0, 45, 2⟩).ProcessKeyboardEvents
          ⟨fun _ _ c => c, fun _ => Mat4.identity⟩ KeyState.onlyO).ProcessKeyboardEvents
          ⟨fun _ _ c => c, fun _ => Mat4.identity⟩ KeyState.onlyP).g_pCamera = some cam2 ∧
        cam2.Position = ⟨0, 5.5, 8⟩ ∧ cam2.Front = ⟨0, -0.5, -2⟩ ∧ cam2.Up = ⟨0, 1, 0⟩ ∧
        cam2.Zoom = 80 :=
  ⟨rfl,
    (preset_then_perspective_restores_pose
      (ViewManager.new (α := ℚ) none ⟨⟨0, 0, 0⟩, ⟨0, 0, -1⟩, ⟨0, 1, 0⟩, -90, 0, 45, 2⟩)
      ⟨⟨0.0, 5.0, 12.0⟩, ⟨0.0, -0.5, -2.0⟩, ⟨0.0, 1.0, 0.0⟩, -90, 0, 80, 2⟩
      ⟨fun _ _ c => c, fun _ => Mat4.identity⟩ KeyState.onlyO rfl).1⟩

/-! ## View manager: mouse look -/

/-- With a camera present, `Mouse_Position_Callback` stores the cursor position, clears the
first-mouse flag, adds the scaled offsets to yaw and pitch, clamps the pitch and recomputes
`Front`; on the first event the offsets are taken from the event's own position. -/
theorem mouse_callback_eq {α : Type} [LinearOrderedField α] (vm : ViewManager α)
    (cam : Camera α) (ops : FloatOps α) (x y : α) (hcam : vm.g_pCamera = some cam) :
    vm.Mouse_Position_Callback ops x y =
      .ok { vm with
        gLastX := x
        gLastY := y
        gFirstMouse := false
        g_pCamera :=
          some { ViewManager.clampPitch
                  { cam with
                    Yaw := cam.Yaw + (x - (if vm.gFirstMouse then x else vm.gLastX)) * 0.1
                    Pitch :=
                      cam.Pitch + ((if vm.gFirstMouse then y else vm.gLastY) - y) * 0.1 } with
            Front := ViewManager.lookDirection ops
              (ViewManager.clampPitch
                { cam with
                  Yaw := cam.Yaw + (x - (if vm.gFirstMouse then x else vm.gLastX)) * 0.1
                  Pitch :=
                    cam.Pitch + ((if vm.gFirstMouse then y else vm.gLastY) - y) * 0.1 }) } } := by
  obtain ⟨a1, a2, a3, a4, a5, a6, a7, a8, a9⟩ := vm
  simp only at hcam
  subst hcam
  cases a6 <;> simp [ViewManager.Mouse_Position_Callback]

/-- The pitch tests leave the pitch in [-89, 89], at 89 or -89 when it was beyond, and do
not touch the yaw. -/
theorem clampPitch_pitch {α : Type} [LinearOrderedField α] (cam : Camera α) :
    (ViewManager.clampPitch cam).Pitch =
        (if cam.Pitch > 89 then 89 else if cam.Pitch < -89 then -89 else cam.Pitch) ∧
      (ViewManager.clampPitch cam).Yaw = cam.Yaw ∧
      -89 ≤ (ViewManager.clampPitch cam).Pitch ∧ (ViewManager.clampPitch cam).Pitch ≤ 89 := by
  unfold ViewManager.clampPitch
  by_cases h1 : cam.Pitch > 89
  · have h2 : ¬ ((89 : α) < -89) := by norm_num
    norm_num [h1, h2]
  · by_cases h3 : cam.Pitch < -89
    · norm_num [h1, h3]
    · norm_num [h1, h3]
      constructor <;> linarith

/-- A run of mouse events on a state with a camera finishes without a fault and leaves a
camera. -/
theorem mouseMoves_ok {α : Type} [LinearOrderedField α] (ops : FloatOps α)
    (events : List (α × α)) :
    ∀ (vm : ViewManager α), (∃ cam, vm.g_pCamera = some cam) →
      ∃ vm1, vm.mouseMoves ops events = .ok vm1 ∧ ∃ cam1, vm1.g_pCamera = some cam1 := by
  induction events with
  | nil => intro vm h; exact ⟨vm, rfl, h⟩
  | cons e rest ih =>
    intro vm h
    obtain ⟨cam, hcam⟩ := h
    obtain ⟨x, y⟩ := e
    have hstep := mouse_callback_eq vm cam ops x y hcam
    simp only [ViewManager.mouseMoves, hstep]
    exact ih _ ⟨_, rfl⟩

theorem mouseMoves_append {α : Type} [LinearOrderedField α] (ops : FloatOps α)
    (events : List (α × α)) (e : α × α) :
    ∀ (vm vm1 : ViewManager α), vm.mouseMoves ops events = .ok vm1 →
      vm.mouseMoves ops (events ++ [e]) = vm1.mouseMoves ops [e] := by
  induction events with
  | nil =>
    intro vm vm1 h
    simp only [ViewManager.mouseMoves] at h
    injection h with h
    subst h
    rfl
  | cons d rest ih =>
    intro vm vm1 h
    obtain ⟨x, y⟩ := d
    simp only [List.cons_append, ViewManager.mouseMoves] at h ⊢
    cases hst : vm.Mouse_Position_Callback ops x y with
    | error f => rw [hst] at h; cases h
    | ok vm2 =>
      rw [hst] at h
      simp only at h ⊢
      exact ih _ _ h

/-- C13, as the code has it: with a camera present, after `Mouse_Position_Callback` the
pitch lies in [-89, 89].  With `lastY` the stored cursor y, or the event's own y on the
first event, and `t` the pitch before plus `0.1 * (lastY - y)`: the pitch is 89 when
`t > 89`, -89 when `t < -89`, and `t` otherwise.  After any non-empty run of mouse events
the pitch lies in [-89, 89].  The scalars range over any ordered field, in particular the
real numbers. -/
theorem mouse_callback_clamps_pitch {α : Type} [LinearOrderedField α] (vm : ViewManager α)
    (cam : Camera α) (ops : FloatOps α) (x y : α) (hcam : vm.g_pCamera = some cam) :
    (∃ vm1 cam1, vm.Mouse_Position_Callback ops x y = .ok vm1 ∧
        vm1.g_pCamera = some cam1 ∧ -89 ≤ cam1.Pitch ∧ cam1.Pitch ≤ 89 ∧
        (89 < cam.Pitch + 0.1 * ((if vm.gFirstMouse then y else vm.gLastY) - y) →
          cam1.Pitch = 89) ∧
        (cam.Pitch + 0.1 * ((if vm.gFirstMouse then y else vm.gLastY) - y) < -89 →
          cam1.Pitch = -89) ∧
        (-89 ≤ cam.Pitch + 0.1 * ((if vm.gFirstMouse then y else vm.gLastY) - y) →
          cam.Pitch + 0.1 * ((if vm.gFirstMouse then y else vm.gLastY) - y) ≤ 89 →
          cam1.Pitch = cam.Pitch + 0.1 * ((if vm.gFirstMouse then y else vm.gLastY) - y))) ∧
      (∀ (events : List (α × α)) (e : α × α), ∃ vm2 cam2,
        vm.mouseMoves ops (events ++ [e]) = .ok vm2 ∧ vm2.g_pCamera = some cam2 ∧
        -89 ≤ cam2.Pitch ∧ cam2.Pitch ≤ 89) := by
  constructor
  · have hstep := mouse_callback_eq vm cam ops x y hcam
    obtain ⟨hp, _, hlo, hhi⟩ := clampPitch_pitch
      { cam with
        Yaw := cam.Yaw + (x - (if vm.gFirstMouse then x else vm.gLastX)) * 0.1
        Pitch := cam.Pitch + ((if vm.gFirstMouse then y else vm.gLastY) - y) * 0.1 }
    have hcomm : cam.Pitch + ((if vm.gFirstMouse then y else vm.gLastY) - y) * 0.1 =
        cam.Pitch + 0.1 * ((if vm.gFirstMouse then y else vm.gLastY) - y) := by ring
    simp only [hcomm] at hp hlo hhi
    rw [hstep]
    refine ⟨_, _, rfl, rfl, ?_, ?_, ?_, ?_, ?_⟩
    · simpa [hcomm] using hlo
    · simpa [hcomm] using hhi
    · intro h
      simp only [hcomm, hp, gt_iff_lt, if_pos h]
    · intro h
      have h1 : ¬ (89 < cam.Pitch + 0.1 * ((if vm.gFirstMouse then y else vm.gLastY) - y)) := by
        intro h2
        linarith
      simp only [hcomm, hp, gt_iff_lt, if_neg h1, if_pos h]
    · intro h1 h2
      simp only [hcomm, hp, gt_iff_lt, if_neg (not_lt.mpr h2), if_neg (not_lt.mpr h1)]
  · intro events e
    obtain ⟨vm1, h1, cam1, hcam1⟩ := mouseMoves_ok ops events vm ⟨cam, hcam⟩
    obtain ⟨x1, y1⟩ := e
    rw [mouseMoves_append ops events (x1, y1) vm vm1 h1]
    have hstep := mouse_callback_eq vm1 cam1 ops x1 y1 hcam1
    obtain ⟨_, _, hlo, hhi⟩ := clampPitch_pitch
      { cam1 with
        Yaw := cam1.Yaw + (x1 - (if vm1.gFirstMouse then x1 else vm1.gLastX)) * 0.1
        Pitch := cam1.Pitch + ((if vm1.gFirstMouse then y1 else vm1.gLastY) - y1) * 0.1 }
    simp only [ViewManager.mouseMoves, hstep]
    exact ⟨_, _, rfl, rfl, hlo, hhi⟩

/-- C13 on a later event: with the cursor last seen at y = 400, pitch 88 and an event at
y = 300, the sum 88 + 0.1 * 100 = 98 exceeds 89 and the pitch becomes 89. -/
theorem mouse_callback_clamps_pitch_witness :
    ∃ vm1 cam1,
      (ViewManager.mk (α := ℝ) none false
          (some ⟨⟨0, 0, 0⟩, ⟨0, 0, -1⟩, ⟨0, 1, 0⟩, -90, 88, 80, 2⟩) 500 400 false 0 0
          false).Mouse_Position_Callback ⟨Real.cos, Real.sin, fun x => (Real.sqrt x)⁻¹, Real.pi / 180⟩ 500 300 =
        .ok vm1 ∧
      vm1.g_pCamera = some cam1 ∧ cam1.Pitch = 89 :=
  have h := (mouse_callback_clamps_pitch
    (ViewManager.mk (α := ℝ) none false
      (some ⟨⟨0, 0, 0⟩, ⟨0, 0, -1⟩, ⟨0, 1, 0⟩, -90, 88, 80, 2⟩) 500 400 false 0 0 false)
    ⟨⟨0, 0, 0⟩, ⟨0, 0, -1⟩, ⟨0, 1, 0⟩, -90, 88, 80, 2⟩
    ⟨Real.cos, Real.sin, fun x => (Real.sqrt x)⁻¹, Real.pi / 180⟩ 500 300 rfl).1
  let ⟨vm1, cam1, h1, h2, _, _, h5, _⟩ := h
  ⟨vm1, cam1, h1, h2, h5 (by norm_num)⟩

/-- C13 as stated fails on the first event: in the constructor's state the stored cursor y
is 400 and the pitch is 0; for an event at y = 0 the sum 0 + 0.1 * (400 - 0) = 40 lies
within [-89, 89], yet the pitch after the call is 0, because the first event replaces the
stored position by its own before the offset is taken. -/
theorem mouse_first_event_ignores_stored_position :
    (ViewManager.new (α := ℝ) none ⟨⟨0, 0, 0⟩, ⟨0, 0, -1⟩, ⟨0, 1, 0⟩, -90, 0, 45, 2⟩).gLastY
        = 400 ∧
      (ViewManager.new (α := ℝ) none
        ⟨⟨0, 0, 0⟩, ⟨0, 0, -1⟩, ⟨0, 1, 0⟩, -90, 0, 45, 2⟩).gFirstMouse = true ∧
      (0 : ℝ) + 0.1 * (400 - 0) = 40 ∧
      ∃ vm1 cam1,
        (ViewManager.new (α := ℝ) none
          ⟨⟨0, 0, 0⟩, ⟨0, 0, -1⟩, ⟨0, 1, 0⟩, -90, 0, 45, 2⟩).Mouse_Position_Callback
          ⟨Real.cos, Real.sin, fun x => (Real.sqrt x)⁻¹, Real.pi / 180⟩ 500 0 = .ok vm1 ∧
        vm1.g_pCamera = some cam1 ∧ cam1.Pitch = 0 ∧ cam1.Pitch ≠ 0 + 0.1 * (400 - 0) := by
  refine ⟨by norm_num [ViewManager.new, WINDOW_HEIGHT], rfl, by norm_num, ?_⟩
  rw [mouse_callback_eq _ _ _ _ _ rfl]
  refine ⟨_, _, rfl, rfl, ?_, ?_⟩
  · rw [(clampPitch_pitch _).1]
    norm_num [ViewManager.new]
  · rw [(clampPitch_pitch _).1]
    norm_num [ViewManager.new]

/-- Over the reals the direction computed from yaw and pitch has length 1, so normalising
it changes nothing. -/
theorem lookDirection_real (cam : Camera ℝ) :
    ViewManager.lookDirection ⟨Real.cos, Real.sin, fun x => (Real.sqrt x)⁻¹, Real.pi / 180⟩ cam =
      ⟨Real.cos (cam.Yaw * (Real.pi / 180)) * Real.cos (cam.Pitch * (Real.pi / 180)),
       Real.sin (cam.Pitch * (Real.pi / 180)),
       Real.sin (cam.Yaw * (Real.pi / 180)) * Real.cos (cam.Pitch * (Real.pi / 180))⟩ := by
  have h1 := Real.sin_sq_add_cos_sq (cam.Yaw * (Real.pi / 180))
  have h2 := Real.sin_sq_add_cos_sq (cam.Pitch * (Real.pi / 180))
  have hdot :
      Real.cos (cam.Yaw * (Real.pi / 180)) * Real.cos (cam.Pitch * (Real.pi / 180)) *
          (Real.cos (cam.Yaw * (Real.pi / 180)) * Real.cos (cam.Pitch * (Real.pi / 180))) +
        Real.sin (cam.Pitch * (Real.pi / 180)) * Real.sin (cam.Pitch * (Real.pi / 180)) +
        Real.sin (cam.Yaw * (Real.pi / 180)) * Real.cos (cam.Pitch * (Real.pi / 180)) *
          (Real.sin (cam.Yaw * (Real.pi / 180)) * Real.cos (cam.Pitch * (Real.pi / 180))) =
      1 := by
    linear_combination (Real.cos (cam.Pitch * (Real.pi / 180))) ^ 2 * h1 + h2
  simp only [ViewManager.lookDirection, Vec3.normalize, Vec3.dot, Vec3.scale, radians, hdot,
    Real.sqrt_one, inv_one, mul_one]

/-- Over the reals the z component of the direction computed from yaw and pitch has
absolute value at most 1. -/
theorem lookDirection_real_z_sq (cam : Camera ℝ) :
    (ViewManager.lookDirection
      ⟨Real.cos, Real.sin, fun x => (Real.sqrt x)⁻¹, Real.pi / 180⟩ cam).z ^ 2 ≤ 1 := by
  rw [lookDirection_real]
  have h1 := Real.sin_sq_add_cos_sq (cam.Yaw * (Real.pi / 180))
  have h2 := Real.sin_sq_add_cos_sq (cam.Pitch * (Real.pi / 180))
  have hid :
      (Real.sin (cam.Yaw * (Real.pi / 180)) * Real.cos (cam.Pitch * (Real.pi / 180))) ^ 2 =
        1 - Real.cos (cam.Yaw * (Real.pi / 180)) ^ 2 -
          (Real.sin (cam.Yaw * (Real.pi / 180)) * Real.sin (cam.Pitch * (Real.pi / 180))) ^ 2 := by
    linear_combination (Real.sin (cam.Yaw * (Real.pi / 180))) ^ 2 * h2 + h1
  simp only [hid]
  nlinarith [sq_nonneg (Real.cos (cam.Yaw * (Real.pi / 180))),
    sq_nonneg (Real.sin (cam.Yaw * (Real.pi / 180)) * Real.sin (cam.Pitch * (Real.pi / 180)))]

/-- C14 on the code: in the state the constructor leaves, whatever yaw and pitch the new
camera has, the first `Mouse_Position_Callback` stores the cursor position, clears the
first-mouse flag and keeps the yaw, but it assigns `Front` the unit direction of yaw and
pitch, which is not the `Front` (0, -0.5, -2) the constructor had set. -/
theorem first_mouse_event_changes_front (sh : Option (ShaderManager ℝ)) (newCamera : Camera ℝ)
    (x y : ℝ) :
    ∃ cam0 vm1 cam1,
      (ViewManager.new sh newCamera).g_pCamera = some cam0 ∧ cam0.Front = ⟨0, -0.5, -2⟩ ∧
      (ViewManager.new sh newCamera).gFirstMouse = true ∧
      (ViewManager.new sh newCamera).Mouse_Position_Callback
        ⟨Real.cos, Real.sin, fun x => (Real.sqrt x)⁻¹, Real.pi / 180⟩ x y = .ok vm1 ∧
      vm1.g_pCamera = some cam1 ∧ vm1.gLastX = x ∧ vm1.gLastY = y ∧
      vm1.gFirstMouse = false ∧ cam1.Yaw = newCamera.Yaw ∧ cam1.Front ≠ cam0.Front := by
  rw [mouse_callback_eq _ _ _ _ _ rfl]
  refine ⟨_, _, _, rfl, ?_, rfl, rfl, rfl, rfl, rfl, rfl, ?_, ?_⟩
  · norm_num
  · rw [(clampPitch_pitch _).2.1]
    simp [ViewManager.new]
  · intro h
    have hz := congrArg Vec3.z h
    simp only at hz
    have hsq := lookDirection_real_z_sq
      (ViewManager.clampPitch
        { Position := ⟨0.0, 5.0, 12.0⟩, Front := ⟨0.0, -0.5, -2.0⟩, Up := ⟨0.0, 1.0, 0.0⟩,
          Yaw := newCamera.Yaw +
            (x - if (ViewManager.new sh newCamera).gFirstMouse = true then x
              else (ViewManager.new sh newCamera).gLastX) * 0.1,
          Pitch := newCamera.Pitch +
            ((if (ViewManager.new sh newCamera).gFirstMouse = true then y
              else (ViewManager.new sh newCamera).gLastY) - y) * 0.1,
          Zoom := 80, MovementSpeed := newCamera.MovementSpeed })
    rw [hz] at hsq
    norm_num at hsq

/-! ## View manager: projection upload -/

/-- C17 on the code: in orthographic mode with no key pressed, the mode test of
`PrepareSceneView` does select `ortho(-5, 5, -5·0.8, 5·0.8, 0.1, 100)`, but the assignment
after it replaces the value, so the matrix uploaded as `projection` is
`perspective(radians(Zoom), 1000/800, 0.1, 100)`, which is a different matrix. -/
theorem prepareSceneView_uploads_perspective_in_orthographic_mode {α : Type}
    [LinearOrderedField α] (vm : ViewManager α) (cam : Camera α) (sh : ShaderManager α)
    (cops : CameraOps α) (ops : FloatOps α) (tan : α → α) (currentFrame : α) :
    ViewManager.PrepareSceneView
        { vm with
          g_pCamera := some cam
          m_pShaderManager := some sh
          bOrthographicProjection := true }
        cops ops tan KeyState.released currentFrame =
      .ok { vm with
        g_pCamera := some cam
        bOrthographicProjection := true
        gDeltaTime := currentFrame - vm.gLastFrame
        gLastFrame := currentFrame
        m_pShaderManager :=
          some ⟨sh.uniforms ++
            [("view", .mat4 (cops.GetViewMatrix cam)),
             ("projection",
                .mat4 (Mat4.perspective tan (radians ops cam.Zoom) (1000 / 800) 0.1 100)),
             ("viewPosition", .vec3 cam.Position)]⟩ } ∧
      ViewManager.projectionByMode ops tan true cam =
        Mat4.ortho (-5) 5 (-5 * 0.8) (5 * 0.8) 0.1 100 ∧
      Mat4.perspective tan (radians ops cam.Zoom) (1000 / 800) 0.1 100 ≠
        Mat4.ortho (-5) 5 (-5 * 0.8) (5 * 0.8) 0.1 100 := by
  refine ⟨?_, ?_, ?_⟩
  · simp only [ViewManager.PrepareSceneView]
    rw [processKeyboardEvents_eq _ cam cops KeyState.released rfl]
    simp [ViewManager.presetKeys, ViewManager.movementKeys, KeyState.released,
      ShaderManager.setMat4Value, ShaderManager.setVec3Value, g_ViewName, g_ProjectionName,
      WINDOW_WIDTH, WINDOW_HEIGHT]
    norm_num
  · simp only [ViewManager.projectionByMode, WINDOW_WIDTH, WINDOW_HEIGHT]
    norm_num
  · intro h
    have hw := congrArg (fun m => m.c3.w) h
    simp [Mat4.perspective, Mat4.ortho] at hw

/-! ## The authored scene -/

/-- C18: in the call sequence of `RenderScene`, every draw call has, among the calls issued
since the previous draw call (or since the start), a `SetShaderMaterial`, a
`SetTransformations` and a `SetShaderTexture` or `SetShaderColor`. -/
theorem renderScene_draws_fully_set {α : Type} [Field α] (i : Nat)
    (c : SceneManager.SceneCall α)
    (hc : (SceneManager.renderSceneCalls (α := α))[i]? = some c) (hd : c.isDraw = true) :
    (SceneManager.callsSinceLastDraw (SceneManager.renderSceneCalls (α := α)) i).any
        SceneManager.SceneCall.isMaterial = true ∧
      (SceneManager.callsSinceLastDraw (SceneManager.renderSceneCalls (α := α)) i).any
        SceneManager.SceneCall.isTransform = true ∧
      (SceneManager.callsSinceLastDraw (SceneManager.renderSceneCalls (α := α)) i).any
        SceneManager.SceneCall.isSurface = true := by
  have hall : (List.range (SceneManager.renderSceneCalls (α := α)).length).all (fun i =>
      match (SceneManager.renderSceneCalls (α := α))[i]? with
      | some (c : SceneManager.SceneCall α) => !c.isDraw ||
          ((SceneManager.callsSinceLastDraw (SceneManager.renderSceneCalls (α := α)) i).any
              SceneManager.SceneCall.isMaterial &&
           (SceneManager.callsSinceLastDraw (SceneManager.renderSceneCalls (α := α)) i).any
              SceneManager.SceneCall.isTransform &&
           (SceneManager.callsSinceLastDraw (SceneManager.renderSceneCalls (α := α)) i).any
              SceneManager.SceneCall.isSurface)
      | none => true) = true := by
    rfl
  have hi : i < (SceneManager.renderSceneCalls (α := α)).length := by
    by_contra hge
    rw [List.getElem?_eq_none (by omega)] at hc
    cases hc
  have h := List.all_eq_true.mp hall i (List.mem_range.mpr hi)
  rw [hc] at h
  simp only [hd, Bool.not_true, Bool.false_or, Bool.and_eq_true] at h
  exact ⟨h.1.1, h.1.2, h.2⟩

/-- C18 at the first draw call, `DrawBoxMesh` at position 3, which follows
`SetShaderMaterial`, `SetTransformations` and `SetShaderTexture`. -/
theorem renderScene_draws_fully_set_witness :
    (SceneManager.renderSceneCalls (α := ℚ))[3]? = some .DrawBoxMesh ∧
      (SceneManager.callsSinceLastDraw (SceneManager.renderSceneCalls (α := ℚ)) 3).any
          SceneManager.SceneCall.isMaterial = true ∧
      (SceneManager.callsSinceLastDraw (SceneManager.renderSceneCalls (α := ℚ)) 3).any
          SceneManager.SceneCall.isTransform = true ∧
      (SceneManager.callsSinceLastDraw (SceneManager.renderSceneCalls (α := ℚ)) 3).any
          SceneManager.SceneCall.isSurface = true :=
  ⟨rfl, renderScene_draws_fully_set 3 .DrawBoxMesh rfl rfl⟩

/-- C19 on the code: of the seven materials `DefineObjectMaterials` stores, only
`LightMaterial` and `ReflectPlane` have `ambientStrength` assigned; the other five carry
whatever their uninitialised local held, and that is what `SetShaderMaterial` uploads as
`material.ambientStrength`, here for `MonitorMaterial`. -/
theorem defineObjectMaterials_leaves_ambientStrength_unassigned {α : Type} [Field α]
    (uninit : Nat → OBJECT_MATERIAL α) (u : OBJECT_MATERIAL α) :
    (((emptyScene α).DefineObjectMaterials uninit).m_objectMaterials.map
        (fun m => (m.tag, m.ambientStrength)) =
      [("LightMaterial", 0.1), ("MonitorMaterial", (uninit 1).ambientStrength),
       ("ReflectPlane", 0.1), ("DeskMaterial", (uninit 3).ambientStrength),
       ("StandMaterial", (uninit 4).ambientStrength),
       ("PS5Material", (uninit 5).ambientStrength),
       ("SpeakerMaterial", (uninit 6).ambientStrength)]) ∧
      ∃ s1 sh1,
        ((emptyScene α).DefineObjectMaterials uninit).SetShaderMaterial "MonitorMaterial" u =
          .ok s1 ∧
        s1.m_pShaderManager = some sh1 ∧
        sh1.value "material.ambientStrength" = some (.float (uninit 1).ambientStrength) :=
  ⟨rfl, _, _, rfl, rfl, by
    simp [ShaderManager.value, ShaderManager.setVec3Value, ShaderManager.setFloatValue]
    rfl⟩

/-- A decodable image with 3 or 4 channels sends `CreateGLTexture` to its registration
step. -/
theorem createGLTexture_decoded {α : Type} (img : StbImage)
    (hch : img.colorChannels = 3 ∨ img.colorChannels = 4) (s : SceneManager α)
    (genTexture : Nat) (tag : String) :
    s.CreateGLTexture (some img) genTexture tag =
      s.registerTexture (genTexture % 2 ^ 32) tag := by
  rcases hch with h | h <;> simp [SceneManager.CreateGLTexture, h]

/-- A list of length 16 is a list of sixteen elements. -/
theorem list_length_sixteen {β : Type} (l : List β) (h : l.length = 16) :
    ∃ a0 a1 a2 a3 a4 a5 a6 a7 a8 a9 a10 a11 a12 a13 a14 a15 : β,
      l = [a0, a1, a2, a3, a4, a5, a6, a7, a8, a9, a10, a11, a12, a13, a14, a15] := by
  rcases l with _ | ⟨a0, l⟩
  · simp at h
  rcases l with _ | ⟨a1, l⟩
  · simp at h
  rcases l with _ | ⟨a2, l⟩
  · simp at h
  rcases l with _ | ⟨a3, l⟩
  · simp at h
  rcases l with _ | ⟨a4, l⟩
  · simp at h
  rcases l with _ | ⟨a5, l⟩
  · simp at h
  rcases l with _ | ⟨a6, l⟩
  · simp at h
  rcases l with _ | ⟨a7, l⟩
  · simp at h
  rcases l with _ | ⟨a8, l⟩
  · simp at h
  rcases l with _ | ⟨a9, l⟩
  · simp at h
  rcases l with _ | ⟨a10, l⟩
  · simp at h
  rcases l with _ | ⟨a11, l⟩
  · simp at h
  rcases l with _ | ⟨a12, l⟩
  · simp at h
  rcases l with _ | ⟨a13, l⟩
  · simp at h
  rcases l with _ | ⟨a14, l⟩
  · simp at h
  rcases l with _ | ⟨a15, l⟩
  · simp at h
  rcases l with _ | ⟨b, l⟩
  · exact ⟨a0, a1, a2, a3, a4, a5, a6, a7, a8, a9, a10, a11, a12, a13, a14, a15, rfl⟩
  · simp at h

/-- When every load succeeds, `LoadSceneTextures` on a registry with a count of zero and a
16-element array registers the eight tags in slots 0 to 7 and leaves the other members. -/
theorem loadSceneTextures_eq {α : Type} (decode : String → Option StbImage) (gen : Nat → Nat)
    (hall : ∀ file : String, ∃ img, decode file = some img ∧
      (img.colorChannels = 3 ∨ img.colorChannels = 4))
    (sh : Option (ShaderManager α)) (entries : List TEXTURE_INFO)
    (hlen : entries.length = MAX_TEXTURES) (mats : List (OBJECT_MATERIAL α)) :
    SceneManager.LoadSceneTextures ⟨sh, 0, entries, mats⟩ decode gen =
      .ok ⟨sh, 8,
        [⟨"floor", gen 0 % 2 ^ 32⟩, ⟨"wood", gen 1 % 2 ^ 32⟩, ⟨"stainless", gen 2 % 2 ^ 32⟩,
         ⟨"stainlessend", gen 3 % 2 ^ 32⟩, ⟨"game", gen 4 % 2 ^ 32⟩,
         ⟨"Blackgloss", gen 5 % 2 ^ 32⟩, ⟨"Whitetex", gen 6 % 2 ^ 32⟩,
         ⟨"Whitemarb", gen 7 % 2 ^ 32⟩] ++ entries.drop 8, mats⟩ := by
  obtain ⟨a0, a1, a2, a3, a4, a5, a6, a7, a8, a9, a10, a11, a12, a13, a14, a15, rfl⟩ :=
    list_length_sixteen entries hlen
  obtain ⟨i0, h0, c0⟩ := hall "../../Utilities/textures/floor.jpg"
  obtain ⟨i1, h1, c1⟩ := hall "../../Utilities/textures/knife_handle.jpg"
  obtain ⟨i2, h2, c2⟩ := hall "../../Utilities/textures/stainless.jpg"
  obtain ⟨i3, h3, c3⟩ := hall "../../Utilities/textures/stainless_end.jpg"
  obtain ⟨i4, h4, c4⟩ := hall "../../Utilities/textures/Galaga.jpg"
  obtain ⟨i5, h5, c5⟩ := hall "../../Utilities/textures/Blackgloss.jpg"
  obtain ⟨i6, h6, c6⟩ := hall "../../Utilities/textures/Whitetex.jpg"
  obtain ⟨i7, h7, c7⟩ := hall "../../Utilities/textures/WhiteMarble.jpg"
  simp only [SceneManager.LoadSceneTextures, h0, h1, h2, h3, h4, h5, h6, h7,
    createGLTexture_decoded i0 c0, createGLTexture_decoded i1 c1,
    createGLTexture_decoded i2 c2, createGLTexture_decoded i3 c3,
    createGLTexture_decoded i4 c4, createGLTexture_decoded i5 c5,
    createGLTexture_decoded i6 c6, createGLTexture_decoded i7 c7]
  rfl

/-- When every load succeeds, `PrepareScene` on a scene manager with a shader manager, a
count of zero, a 16-element array and an empty catalog leaves the seven materials of
`DefineObjectMaterials` and the eight textures of `LoadSceneTextures`. -/
theorem prepareScene_eq {α : Type} [Field α] (s : SceneManager α) (sh : ShaderManager α)
    (hsh : s.m_pShaderManager = some sh) (hcount : s.m_loadedTextures = 0)
    (hlen : s.m_textureIDs.length = MAX_TEXTURES) (hcat : s.m_objectMaterials = [])
    (uninit : Nat → OBJECT_MATERIAL α)
    (decode : String → Option StbImage) (gen : Nat → Nat)
    (hall : ∀ file : String, ∃ img, decode file = some img ∧
      (img.colorChannels = 3 ∨ img.colorChannels = 4)) :
    ∃ sh1, s.PrepareScene uninit decode gen =
      .ok ⟨some sh1, 8,
        [⟨"floor", gen 0 % 2 ^ 32⟩, ⟨"wood", gen 1 % 2 ^ 32⟩, ⟨"stainless", gen 2 % 2 ^ 32⟩,
         ⟨"stainlessend", gen 3 % 2 ^ 32⟩, ⟨"game", gen 4 % 2 ^ 32⟩,
         ⟨"Blackgloss", gen 5 % 2 ^ 32⟩, ⟨"Whitetex", gen 6 % 2 ^ 32⟩,
         ⟨"Whitemarb", gen 7 % 2 ^ 32⟩] ++ s.m_textureIDs.drop 8,
        ((emptyScene α).DefineObjectMaterials uninit).m_objectMaterials⟩ := by
  obtain ⟨shm, count, entries, mats⟩ := s
  simp only at hsh hcount hlen hcat
  subst hsh hcount hcat
  have hl : ∃ sh1,
      (SceneManager.DefineObjectMaterials
        (SceneManager.mk (some sh) 0 entries ([] : List (OBJECT_MATERIAL α)))
        uninit).SetupSceneLights =
      .ok ⟨some sh1, 0, entries,
        ((emptyScene α).DefineObjectMaterials uninit).m_objectMaterials⟩ := ⟨_, rfl⟩
  obtain ⟨sh1, hl⟩ := hl
  refine ⟨sh1, ?_⟩
  have hp : SceneManager.PrepareScene
        (SceneManager.mk (some sh) 0 entries ([] : List (OBJECT_MATERIAL α)))
        uninit decode gen =
      SceneManager.LoadSceneTextures
        ⟨some sh1, 0, entries,
          ((emptyScene α).DefineObjectMaterials uninit).m_objectMaterials⟩ decode gen := by
    unfold SceneManager.PrepareScene
    simp only [hl]
    rfl
  rw [hp, loadSceneTextures_eq decode gen hall _ entries hlen]

/-- A tag among the registered tags is found by `FindTextureSlot` at a slot that holds
it. -/
theorem findTextureSlot_of_registered {α : Type} (s : SceneManager α) (tag : String)
    (hwf : s.m_loadedTextures ≤ (s.m_textureIDs.length : Int))
    (hmem : tag ∈ s.registeredTags) :
    ∃ k : Nat, s.FindTextureSlot tag = .ok (k : Int) ∧ s.registeredTags[k]? = some tag := by
  rcases findTextureSlot_cases s tag hwf with ⟨_, hno⟩ | ⟨k, e, hres, hk, hke, htag, _⟩
  · exfalso
    simp only [SceneManager.registeredTags, List.mem_map] at hmem
    obtain ⟨e, he, hetag⟩ := hmem
    obtain ⟨j, hj⟩ := List.getElem?_of_mem he
    rw [List.getElem?_take] at hj
    split at hj
    · rename_i hlt
      exact hno j e (by omega) hj hetag
    · cases hj
  · refine ⟨k, hres, ?_⟩
    simp only [SceneManager.registeredTags, List.getElem?_map]
    rw [List.getElem?_take_of_lt (by omega), hke]
    simp [htag]

/-- A tag some material carries is found by `FindMaterial`, with the parameters of the
first material carrying it. -/
theorem findMaterial_of_mem {α : Type} (s : SceneManager α) (tag : String)
    (material : OBJECT_MATERIAL α) (h : ∃ m ∈ s.m_objectMaterials, m.tag = tag) :
    ∃ (m out : OBJECT_MATERIAL α), m ∈ s.m_objectMaterials ∧ m.tag = tag ∧
      s.FindMaterial tag material = .ok (true, out) ∧
      out.ambientColor = m.ambientColor ∧ out.ambientStrength = m.ambientStrength ∧
      out.diffuseColor = m.diffuseColor ∧ out.specularColor = m.specularColor ∧
      out.shininess = m.shininess := by
  obtain ⟨k, m, hk, htag, hmin⟩ := exists_first_material s.m_objectMaterials tag h
  have hklen : k < s.m_objectMaterials.length := by
    by_contra hge
    rw [List.getElem?_eq_none (by omega)] at hk
    cases hk
  have hloop := findMaterialLoop_first s tag k m hk htag material
    (s.m_objectMaterials.length + 1) 0 (by omega) (Nat.zero_le k)
    (fun j m1 _ hjk hj => hmin j m1 hjk hj)
  have hne : s.m_objectMaterials.length ≠ 0 := by omega
  refine ⟨m,
    { material with
      ambientColor := m.ambientColor
      ambientStrength := m.ambientStrength
      diffuseColor := m.diffuseColor
      specularColor := m.specularColor
      shininess := m.shininess }, List.getElem?_mem hk, htag, ?_, rfl, rfl, rfl, rfl, rfl⟩
  simp [SceneManager.FindMaterial, hne, hloop]

/-- C20: for every scene manager state with a shader manager, a count of zero registered
textures, a 16-element texture array and an empty material catalog, and when every load
succeeds, `PrepareScene` registers 8 textures, within the 16-element array; the material
tags and the texture tags are pairwise distinct; every tag `RenderScene` passes to
`SetShaderMaterial` is the tag of a catalog material and `FindMaterial` finds it; every tag
`RenderScene` passes to `SetShaderTexture` is a registered tag and `FindTextureSlot` returns
a slot holding it. -/
theorem authored_scene_referentially_closed {α : Type} [Field α] (s : SceneManager α)
    (sh : ShaderManager α) (hsh : s.m_pShaderManager = some sh)
    (hcount : s.m_loadedTextures = 0) (hlen : s.m_textureIDs.length = MAX_TEXTURES)
    (hcat : s.m_objectMaterials = [])
    (uninit : Nat → OBJECT_MATERIAL α) (decode : String → Option StbImage) (gen : Nat → Nat)
    (hall : ∀ file : String, ∃ img, decode file = some img ∧
      (img.colorChannels = 3 ∨ img.colorChannels = 4)) :
    ∃ s1, s.PrepareScene uninit decode gen = .ok s1 ∧
      s1.m_loadedTextures = 8 ∧ s1.m_loadedTextures ≤ (MAX_TEXTURES : Int) ∧
      s1.m_textureIDs.length = MAX_TEXTURES ∧
      s1.m_objectMaterials.map (fun m => m.tag) =
        ["LightMaterial", "MonitorMaterial", "ReflectPlane", "DeskMaterial", "StandMaterial",
         "PS5Material", "SpeakerMaterial"] ∧
      s1.registeredTags =
        ["floor", "wood", "stainless", "stainlessend", "game", "Blackgloss", "Whitetex",
         "Whitemarb"] ∧
      (s1.m_objectMaterials.map (fun m => m.tag)).Nodup ∧ s1.registeredTags.Nodup ∧
      (∀ tag ∈ SceneManager.materialTagsUsed (SceneManager.renderSceneCalls (α := α)),
        ∀ material : OBJECT_MATERIAL α,
        ∃ (m out : OBJECT_MATERIAL α), m ∈ s1.m_objectMaterials ∧ m.tag = tag ∧
          s1.FindMaterial tag material = .ok (true, out) ∧
          out.ambientColor = m.ambientColor ∧ out.ambientStrength = m.ambientStrength ∧
          out.diffuseColor = m.diffuseColor ∧ out.specularColor = m.specularColor ∧
          out.shininess = m.shininess) ∧
      (∀ tag ∈ SceneManager.textureTagsUsed (SceneManager.renderSceneCalls (α := α)),
        tag ∈ s1.registeredTags ∧
        ∃ k : Nat, s1.FindTextureSlot tag = .ok (k : Int) ∧
          s1.registeredTags[k]? = some tag) := by
  obtain ⟨sh1, hp⟩ := prepareScene_eq s sh hsh hcount hlen hcat uninit decode gen hall
  have hlen1 : (SceneManager.mk (some sh1) 8
          ([⟨"floor", gen 0 % 2 ^ 32⟩, ⟨"wood", gen 1 % 2 ^ 32⟩,
            ⟨"stainless", gen 2 % 2 ^ 32⟩, ⟨"stainlessend", gen 3 % 2 ^ 32⟩,
            ⟨"game", gen 4 % 2 ^ 32⟩, ⟨"Blackgloss", gen 5 % 2 ^ 32⟩,
            ⟨"Whitetex", gen 6 % 2 ^ 32⟩, ⟨"Whitemarb", gen 7 % 2 ^ 32⟩] ++
            s.m_textureIDs.drop 8)
          ((emptyScene α).DefineObjectMaterials uninit).m_objectMaterials).m_textureIDs.length = MAX_TEXTURES := by
    simp only [List.length_append, List.length_drop, hlen, MAX_TEXTURES, List.length_cons,
      List.length_nil]
  have hwf1 : (SceneManager.mk (some sh1) 8
          ([⟨"floor", gen 0 % 2 ^ 32⟩, ⟨"wood", gen 1 % 2 ^ 32⟩,
            ⟨"stainless", gen 2 % 2 ^ 32⟩, ⟨"stainlessend", gen 3 % 2 ^ 32⟩,
            ⟨"game", gen 4 % 2 ^ 32⟩, ⟨"Blackgloss", gen 5 % 2 ^ 32⟩,
            ⟨"Whitetex", gen 6 % 2 ^ 32⟩, ⟨"Whitemarb", gen 7 % 2 ^ 32⟩] ++
            s.m_textureIDs.drop 8)
          ((emptyScene α).DefineObjectMaterials uninit).m_objectMaterials).m_loadedTextures ≤
      ((SceneManager.mk (some sh1) 8
          ([⟨"floor", gen 0 % 2 ^ 32⟩, ⟨"wood", gen 1 % 2 ^ 32⟩,
            ⟨"stainless", gen 2 % 2 ^ 32⟩, ⟨"stainlessend", gen 3 % 2 ^ 32⟩,
            ⟨"game", gen 4 % 2 ^ 32⟩, ⟨"Blackgloss", gen 5 % 2 ^ 32⟩,
            ⟨"Whitetex", gen 6 % 2 ^ 32⟩, ⟨"Whitemarb", gen 7 % 2 ^ 32⟩] ++
            s.m_textureIDs.drop 8)
          ((emptyScene α).DefineObjectMaterials uninit).m_objectMaterials).m_textureIDs.length : Int) := by
    rw [hlen1]
    show (8 : Int) ≤ ((16 : Nat) : Int)
    norm_num
  have hm : (SceneManager.mk (some sh1) 8
          ([⟨"floor", gen 0 % 2 ^ 32⟩, ⟨"wood", gen 1 % 2 ^ 32⟩,
            ⟨"stainless", gen 2 % 2 ^ 32⟩, ⟨"stainlessend", gen 3 % 2 ^ 32⟩,
            ⟨"game", gen 4 % 2 ^ 32⟩, ⟨"Blackgloss", gen 5 % 2 ^ 32⟩,
            ⟨"Whitetex", gen 6 % 2 ^ 32⟩, ⟨"Whitemarb", gen 7 % 2 ^ 32⟩] ++
            s.m_textureIDs.drop 8)
          ((emptyScene α).DefineObjectMaterials uninit).m_objectMaterials).m_objectMaterials.map
          (fun m => m.tag) =
        ["LightMaterial", "MonitorMaterial", "ReflectPlane", "DeskMaterial", "StandMaterial",
         "PS5Material", "SpeakerMaterial"] := rfl
  have ht : (SceneManager.mk (some sh1) 8
          ([⟨"floor", gen 0 % 2 ^ 32⟩, ⟨"wood", gen 1 % 2 ^ 32⟩,
            ⟨"stainless", gen 2 % 2 ^ 32⟩, ⟨"stainlessend", gen 3 % 2 ^ 32⟩,
            ⟨"game", gen 4 % 2 ^ 32⟩, ⟨"Blackgloss", gen 5 % 2 ^ 32⟩,
            ⟨"Whitetex", gen 6 % 2 ^ 32⟩, ⟨"Whitemarb", gen 7 % 2 ^ 32⟩] ++
            s.m_textureIDs.drop 8)
          ((emptyScene α).DefineObjectMaterials uninit).m_objectMaterials).registeredTags =
        ["floor", "wood", "stainless", "stainlessend", "game", "Blackgloss", "Whitetex",
         "Whitemarb"] := rfl
  refine ⟨_, hp, rfl, (by show (8 : Int) ≤ ((16 : Nat) : Int); norm_num), hlen1, hm, ht,
    ?_, ?_, ?_, ?_⟩
  · rw [hm]
    decide
  · rw [ht]
    decide
  · intro tag htag material
    apply findMaterial_of_mem
    have hused : SceneManager.materialTagsUsed (SceneManager.renderSceneCalls (α := α)) ⊆
        ["LightMaterial", "MonitorMaterial", "ReflectPlane", "DeskMaterial", "StandMaterial",
         "PS5Material", "SpeakerMaterial"] := by
      have hu : SceneManager.materialTagsUsed (SceneManager.renderSceneCalls (α := α)) =
          ["PS5Material", "PS5Material", "PS5Material", "PS5Material", "MonitorMaterial",
           "MonitorMaterial", "StandMaterial", "StandMaterial", "SpeakerMaterial",
           "SpeakerMaterial", "DeskMaterial", "DeskMaterial", "DeskMaterial", "DeskMaterial",
           "DeskMaterial", "ReflectPlane"] := rfl
      rw [hu]
      decide
    have hin := hused htag
    rw [← hm, List.mem_map] at hin
    exact hin
  · intro tag htag
    have hused : SceneManager.textureTagsUsed (SceneManager.renderSceneCalls (α := α)) ⊆
        ["floor", "wood", "stainless", "stainlessend", "game", "Blackgloss", "Whitetex",
         "Whitemarb"] := by
      have hu : SceneManager.textureTagsUsed (SceneManager.renderSceneCalls (α := α)) =
          ["Blackgloss", "Whitetex", "Whitetex", "Blackgloss", "stainless", "stainlessend",
           "game", "stainless", "stainless", "Whitemarb", "Whitemarb", "wood", "wood", "wood",
           "wood", "wood", "floor"] := rfl
      rw [hu]
      decide
    have hin := hused htag
    rw [← ht] at hin
    exact ⟨hin, findTextureSlot_of_registered _ tag hwf1 hin⟩

/-- C20 on the empty registry (shader manager present, count 0, sixteen array elements, no
material), with every file decoding to a 64x64 three-channel image and texture names
1, 2, …: `PrepareScene` succeeds and registers the eight tags. -/
theorem authored_scene_referentially_closed_witness :
    (emptyScene ℚ).m_pShaderManager = some ⟨[]⟩ ∧ (emptyScene ℚ).m_loadedTextures = 0 ∧
      (emptyScene ℚ).m_textureIDs.length = MAX_TEXTURES ∧
      (emptyScene ℚ).m_objectMaterials = [] ∧
      (∀ file : String, ∃ img,
        (fun _ : String => some (⟨64, 64, 3⟩ : StbImage)) file = some img ∧
        (img.colorChannels = 3 ∨ img.colorChannels = 4)) ∧
      ∃ s1, (emptyScene ℚ).PrepareScene (fun _ => glassMaterial)
          (fun _ => some ⟨64, 64, 3⟩) (fun k => k + 1) = .ok s1 ∧
        s1.m_loadedTextures = 8 ∧
        s1.registeredTags =
          ["floor", "wood", "stainless", "stainlessend", "game", "Blackgloss", "Whitetex",
           "Whitemarb"] :=
  have hall : ∀ file : String, ∃ img,
      (fun _ : String => some (⟨64, 64, 3⟩ : StbImage)) file = some img ∧
        (img.colorChannels = 3 ∨ img.colorChannels = 4) :=
    fun _ => ⟨⟨64, 64, 3⟩, rfl, Or.inl rfl⟩
  ⟨rfl, rfl, rfl, rfl, hall,
    let ⟨s1, h1, h2, _, _, _, h6, _⟩ :=
      authored_scene_referentially_closed (emptyScene ℚ) ⟨[]⟩ rfl rfl rfl rfl
        (fun _ => glassMaterial) (fun _ => some ⟨64, 64, 3⟩) (fun k => k + 1) hall
    ⟨s1, h1, h2, h6⟩⟩
